import Mathlib

/-
Verification development for the door-geometry engine
(`src/geometry/*.py` of the DoorDesignPython repository).

The Python pipeline is shallowly embedded over exact rationals (ℚ stands
for the IEEE doubles used by the code; all arithmetic performed by the
embedded fragments is +, -, *, / which is exact on the modelled inputs).
Python strings are Lean `String`s; the string methods the source uses
(`lower`, `strip`, `replace`, `split`, `float(...)`) are re-implemented
below as executable functions over `String.data`.

Rounded-corner polygon sampling (`create_rounded_rect`,
`create_rounded_box` in `src/geometry/utilis.py`) uses `math.cos` /
`math.sin`; those polygons are embedded as symbolic descriptors
(`Poly.roundedRect` / `Poly.roundedBox`) that record exactly the
arguments the composer passes to the primitive.  The non-arc vertices of
those primitives (the tangent points appended verbatim by the source at
utilis.py lines 77, 94-95, 100-101, 106-107) are exact rational
coordinates and are exposed by `Poly.keyPts`; every arc sample lies
(in exact real arithmetic) inside the bounding box spanned by those
tangent points, so bounding-box statements over `Poly.keyPts` agree
with the idealized polygon.
-/

namespace DoorGeom

/-- A 2D point, as the (x, y) tuples used throughout the Python source. -/
abbrev Point : Type := ℚ × ℚ

/-! ## Python string primitives -/

/-- Python `str.lower()` restricted to ASCII (all tokens compared by the
source are ASCII). -/
def lowerChar (c : Char) : Char :=
  if 65 ≤ c.toNat ∧ c.toNat ≤ 90 then Char.ofNat (c.toNat + 32) else c

/-- Python `s.lower()`. -/
def pyLower (s : String) : String := ⟨s.data.map lowerChar⟩

/-- Python whitespace test used by `str.strip()`. -/
def isPySpace (c : Char) : Bool :=
  c = ' ' ∨ c = '\t' ∨ c = '\n' ∨ c = '\r'

/-- Python `s.strip()`. -/
def pyStrip (s : String) : String :=
  ⟨((s.data.dropWhile isPySpace).reverse.dropWhile isPySpace).reverse⟩

/-- Python `s.replace(" ", "")`. -/
def removeSpaces (s : String) : String :=
  ⟨s.data.filter (fun c => c ≠ ' ')⟩

/-- Python `s.split("x")` (single-character separator). -/
def splitOnChar (sep : Char) (s : String) : List String :=
  (s.data.splitOn sep).map (fun cs => ⟨cs⟩)

/-- Decimal digit value of a character, if it is a digit. -/
def digitVal? (c : Char) : Option ℕ :=
  if 48 ≤ c.toNat ∧ c.toNat ≤ 57 then some (c.toNat - 48) else none

/-- Whether a character is an ASCII decimal digit. -/
def isDigitChar (c : Char) : Bool := 48 ≤ c.toNat ∧ c.toNat ≤ 57

/-- Numeric value of a list of decimal digits (most significant first). -/
def digitsToNat (cs : List Char) : ℕ :=
  cs.foldl (fun a c => 10 * a + (c.toNat - 48)) 0

/-- Parse an unsigned decimal literal `digits[.digits]` / `.digits` /
`digits.` into an exact rational.  Returns `none` when the characters do
not form such a literal. -/
def parseUnsignedDec (cs : List Char) : Option ℚ :=
  let intPart := cs.takeWhile isDigitChar
  let rest := cs.dropWhile isDigitChar
  match rest with
  | [] =>
      if intPart = [] then none
      else some (digitsToNat intPart : ℚ)
  | '.' :: frac =>
      if frac.all isDigitChar ∧ (intPart ≠ [] ∨ frac ≠ []) then
        some ((digitsToNat intPart : ℚ)
          + (digitsToNat frac : ℚ) / ((10 : ℚ) ^ frac.length))
      else none
  | _ => none

/-- Model of Python `float(s)` on the decimal literals the pipeline feeds
it (optional surrounding whitespace, optional sign, decimal digits with an
optional fraction).  Exponent forms and `inf`/`nan` are not produced by
the door inputs and are rejected. -/
def pyFloat? (s : String) : Option ℚ :=
  match (pyStrip s).data with
  | '-' :: rest => (parseUnsignedDec rest).map (fun q => -q)
  | '+' :: rest => parseUnsignedDec rest
  | rest => parseUnsignedDec rest

/-! ## Data model (`fastapi_app/schemas_input.py`)

`DefaultInfo` is the defaults record of the door configuration.  Besides
the fields declared in `schemas_input.py` it carries the three
double-door fields the geometry code reads from the record
(`double_door_gap`, `bending_width_double_door`,
`fire_glass_top_margin_double`); the spec data model (§3) lists them
among the ~25 named constants, and `fire_glass_top_margin_double` is read
through `getattr(..., default)` so it is modelled as an `Option`. -/

structure DefaultInfo where
  door_minus_measurement_width : ℚ
  door_minus_measurement_height : ℚ
  bending_width : ℚ
  bending_height : ℚ
  bend_adjust : ℚ
  box_gap : ℚ
  box_width : ℚ
  box_height : ℚ
  glass_corner_radius : ℚ
  glass_segments : ℕ
  circle_radius : ℚ
  left_circle_offset : ℚ
  top_circle_offset : ℚ
  keybox_width : ℚ
  keybox_height : ℚ
  keybox_bottom_offset : ℚ
  fire_glass_lr_margin : ℚ
  fire_glass_top_margin : ℚ
  fire_glass_bottom_margin : ℚ
  double_door_gap : ℚ
  bending_width_double_door : ℚ
  fire_glass_top_margin_double : Option ℚ
deriving DecidableEq

/-- `getattr(defaults, "fire_glass_top_margin_double", defaults.fire_glass_top_margin)`. -/
def DefaultInfo.topMarginDouble (d : DefaultInfo) : ℚ :=
  d.fire_glass_top_margin_double.getD d.fire_glass_top_margin

/-- `DoorInfo` of `schemas_input.py` (the unused `default_allowance`
field is omitted; no geometry code reads it). -/
structure DoorInfo where
  category : String
  type : String
  option : Option String
  hole_offset : String
deriving DecidableEq

/-- `DimensionInfo` of `schemas_input.py`. -/
structure DimensionInfo where
  width_measurement : ℚ
  height_measurement : ℚ
  left_side_allowance_width : ℚ
  right_side_allowance_width : ℚ
  top_side_allowance_height : ℚ
  bottom_side_allowance_height : ℚ
deriving DecidableEq

/-- The label/file-name part of the request metadata used by the
orchestrator. -/
structure MetaIn where
  label : String
  file_name : String
deriving DecidableEq

/-- `DoorDXFRequest` of `schemas_input.py`. -/
structure DoorDXFRequest where
  door : DoorInfo
  dimensions : DimensionInfo
  metadata : MetaIn
  defaults : DefaultInfo
deriving DecidableEq

/-! ## `dedupe_consecutive_points` (`src/geometry/utilis.py` lines 138-148) -/

/-- The epsilon of `dedupe_consecutive_points` (`eps=1e-6`). -/
def eps : ℚ := 1 / 1000000

/-- The filtering loop of `dedupe_consecutive_points`: keep a point when
it differs from the previously kept point by more than `eps` in x or y. -/
def dedupeCore (prev : Point) : List Point → List Point
  | [] => []
  | p :: ps =>
      if |p.1 - prev.1| > eps ∨ |p.2 - prev.2| > eps then
        p :: dedupeCore p ps
      else
        dedupeCore prev ps

/-- `dedupe_consecutive_points(points, eps=1e-6)`: drop consecutive
near-duplicates, then append the first point if the result is not already
explicitly closed. -/
def dedupeConsecutivePoints : List Point → List Point
  | [] => []
  | p :: ps =>
      let out := p :: dedupeCore p ps
      if out.getLast? ≠ some p then out ++ [p] else out

/-! ## `prepare_dimensions` (`src/geometry/prepare_dimensions.py`) -/

/-- The derived parameter dictionary built by `prepare_dimensions`.
`defaults` is the defaults object as it stands after the call (the
source mutates `request.defaults` in place when `hole_offset` parses). -/
structure Params where
  door : DoorInfo
  defaults : DefaultInfo
  inner_width : ℚ
  inner_height : ℚ
  leaf_width : ℚ
  gap : ℚ
  is_double : Bool
  bending_width : ℚ
  bending_height : ℚ
  bending_width_double_door : ℚ
  bend_adjust : ℚ
deriving DecidableEq

/-- The `hole_offset` parse of `prepare_dimensions` lines 54-68: lower the
string, delete spaces, split on `x`; when exactly two parts remain and
both parse as floats, the result is `(left, top) = (float(parts[1]),
float(parts[0]))`.  Any failure is swallowed and yields `none`. -/
def parseHoleOffset (hole_offset_raw : String) : Option (ℚ × ℚ) :=
  if pyStrip hole_offset_raw ≠ "" then
    match splitOnChar 'x' (removeSpaces (pyLower hole_offset_raw)) with
    | [p0, p1] =>
        match pyFloat? p1, pyFloat? p0 with
        | some left_val, some top_val => some (left_val, top_val)
        | _, _ => none
    | _ => none
  else none

/-- `prepare_dimensions(request)`: validates the measurements, derives the
inner/leaf dimensions, and applies the `hole_offset` override to the
defaults record.  The `ValueError` raised on a non-positive measurement is
modelled as `Except.error`. -/
def prepareDimensions (request : DoorDXFRequest) : Except String Params :=
  let door := request.door
  let dims := request.dimensions
  let defaults := request.defaults
  if dims.width_measurement ≤ 0 ∨ dims.height_measurement ≤ 0 then
    Except.error "Width and height must be positive numbers."
  else
    let frame_total_width := dims.width_measurement
      + dims.left_side_allowance_width + dims.right_side_allowance_width
    let frame_total_height := dims.height_measurement
      + dims.top_side_allowance_height + dims.bottom_side_allowance_height
    let is_double := pyLower (pyStrip door.category) = "double"
    let door_minus_measurement_width :=
      if is_double then
        defaults.door_minus_measurement_width + defaults.double_door_gap
      else defaults.door_minus_measurement_width
    let inner_width := frame_total_width - door_minus_measurement_width
    let inner_height := frame_total_height - defaults.door_minus_measurement_height
    let double_gap := if is_double then defaults.double_door_gap else 0
    let leaf_width := if is_double then inner_width / 2 else inner_width
    let gap := if is_double then double_gap else 0
    let defaults2 :=
      match parseHoleOffset door.hole_offset with
      | some (left_val, top_val) =>
          { defaults with
            left_circle_offset := left_val
            top_circle_offset := top_val }
      | none => defaults
    Except.ok
      { door := door
        defaults := defaults2
        inner_width := inner_width
        inner_height := inner_height
        leaf_width := leaf_width
        gap := gap
        is_double := is_double
        bending_width := defaults.bending_width
        bending_height := defaults.bending_height
        bending_width_double_door := defaults.bending_width_double_door
        bend_adjust := defaults.bend_adjust }

/-- The state of `request.defaults` after `compute_door_geometry`
returns (or raises): `prepare_dimensions` mutates the two circle-offset
fields in place when `hole_offset` parses, and nothing else in the
pipeline writes to the request. -/
def defaultsAfter (request : DoorDXFRequest) : DefaultInfo :=
  match prepareDimensions request with
  | Except.ok p => p.defaults
  | Except.error _ => request.defaults

/-! ## `create_base_frames` (`src/geometry/create_base_frames.py`) -/

/-- The dictionary returned by `create_base_frames`.  For single doors
the source stores `None` under the four left/double keys; that is
modelled by `Option`. -/
structure Frames where
  outer : List Point
  inner : List Point
  outer_height : ℚ
  inner_offset : Point
  left_outer : Option (List Point)
  left_inner : Option (List Point)
  shift_left : Option ℚ
  inner_offset_left : Option Point
deriving DecidableEq

/-- `create_base_frames(params)`: outer and inner frame polygons for a
single or double door.  `inner_offset_x_left` is
`params.get("inner_offset_x_left", bend_adjust)`; no caller ever stores
that key, so the lookup always yields `bend_adjust`. -/
def createBaseFrames (params : Params) : Frames :=
  let leaf_width := params.leaf_width
  let inner_height := params.inner_height
  let bending_width := params.bending_width
  let bending_height := params.bending_height
  let bending_width_double_door := params.bending_width_double_door
  let bend_adjust := params.bend_adjust
  let is_double := params.is_double
  let gap := params.gap
  let outer_width := leaf_width + bending_width
  let outer_width_left := leaf_width + bending_width_double_door
  let outer_height := inner_height + bending_height
  let inner_offset_x := bending_width - bend_adjust
  let inner_offset_y := bend_adjust - bending_height
  let shift_left := outer_width_left + gap
  let inner_offset_x_left := bend_adjust
  let outer_pts : List Point :=
    [(0, 0), (outer_width, 0), (outer_width, inner_height),
     (0, inner_height), (0, 0)]
  let inner_pts : List Point :=
    [(inner_offset_x, inner_offset_y),
     (inner_offset_x + leaf_width, inner_offset_y),
     (inner_offset_x + leaf_width, inner_offset_y + outer_height),
     (inner_offset_x, inner_offset_y + outer_height),
     (inner_offset_x, inner_offset_y)]
  if is_double then
    let left_outer_local : List Point :=
      [(0, 0), (outer_width_left, 0), (outer_width_left, inner_height),
       (0, inner_height), (0, 0)]
    let left_inner_local : List Point :=
      [(inner_offset_x_left, inner_offset_y),
       (inner_offset_x_left + leaf_width, inner_offset_y),
       (inner_offset_x_left + leaf_width, inner_offset_y + outer_height),
       (inner_offset_x_left, inner_offset_y + outer_height),
       (inner_offset_x_left, inner_offset_y)]
    { outer := outer_pts
      inner := inner_pts
      outer_height := outer_height
      inner_offset := (inner_offset_x, inner_offset_y)
      left_outer := some (left_outer_local.map (fun p => (p.1 - shift_left, p.2)))
      left_inner := some (left_inner_local.map (fun p => (p.1 - shift_left, p.2)))
      shift_left := some shift_left
      inner_offset_left := some (inner_offset_x_left, inner_offset_y) }
  else
    { outer := outer_pts
      inner := inner_pts
      outer_height := outer_height
      inner_offset := (inner_offset_x, inner_offset_y)
      left_outer := none
      left_inner := none
      shift_left := none
      inner_offset_left := none }

/-! ## `create_handles` (`src/geometry/create_handles.py`) -/

/-- The dictionary returned by `create_handles`; `left_handle` is the
empty list for single doors. -/
structure Handles where
  right_handle : List Point
  left_handle : List Point
deriving DecidableEq

/-- `create_handles(params, frames)`.  `frames.get("shift_left", 0.0)`
returns the stored `None` for single doors; the value is only read in the
double branch, where it is the stored rational, so the lookup is modelled
by `getD 0`. -/
def createHandles (params : Params) (frames : Frames) : Handles :=
  let defaults := params.defaults
  let inner_offset_x := frames.inner_offset.1
  let inner_offset_y := frames.inner_offset.2
  let inner_height := params.inner_height
  let leaf_width := params.leaf_width
  let shift_left := frames.shift_left.getD 0
  let is_double := params.is_double
  let handle_gap := defaults.box_gap
  let handle_width := defaults.box_width
  let handle_height := defaults.box_height
  let handle_bottom_y := inner_offset_y
    + ((inner_height + params.bending_height - handle_height) / 2)
  let handle_left_x := inner_offset_x + handle_gap
  let handle_pts : List Point :=
    [(handle_left_x, handle_bottom_y),
     (handle_left_x + handle_width, handle_bottom_y),
     (handle_left_x + handle_width, handle_bottom_y + handle_height),
     (handle_left_x, handle_bottom_y + handle_height),
     (handle_left_x, handle_bottom_y)]
  let left_handle_pts : List Point :=
    if is_double then
      let left_handle_left_x := inner_offset_x - shift_left + leaf_width
        - handle_gap - handle_width
      [(left_handle_left_x, handle_bottom_y),
       (left_handle_left_x + handle_width, handle_bottom_y),
       (left_handle_left_x + handle_width, handle_bottom_y + handle_height),
       (left_handle_left_x, handle_bottom_y + handle_height),
       (left_handle_left_x, handle_bottom_y)]
    else []
  { right_handle := handle_pts, left_handle := left_handle_pts }

/-! ## `apply_transform` (`src/geometry/apply_transform.py`) -/

/-- Minimum of a list of rationals (`min(list)` in Python; the source
only calls it on non-empty lists). -/
def listMin : List ℚ → Option ℚ
  | [] => none
  | x :: xs => some (xs.foldl min x)

/-- Maximum of a list of rationals. -/
def listMax : List ℚ → Option ℚ
  | [] => none
  | x :: xs => some (xs.foldl max x)

/-- The pointwise map of `apply_transform`: plain translation when not
rotated, else the 90-degree rotation `(x, y) ↦ (outer_height − y, x)`
followed by the same translation. -/
def transformPt (rotated : Bool) (translate : ℚ × ℚ) (outer_height : ℚ)
    (pt : Point) : Point :=
  if rotated then
    (translate.1 + (outer_height - pt.2), translate.2 + pt.1)
  else
    (translate.1 + pt.1, translate.2 + pt.2)

/-- `apply_transform(point_sets, rotated, offset, outer_height)`: one
shared translation `(max(0,−min_x), max(0,−min_y))` computed over the
union of all the given point sets, applied to every set (after the
rotation when `rotated`).  The external `offset` is deliberately not
applied (source lines 11-15).  Returns the transformed sets and the
translation. -/
def applyTransform (point_sets : List (List Point)) (rotated : Bool)
    (outer_height : ℚ) : List (List Point) × (ℚ × ℚ) :=
  let all_x := (point_sets.flatMap id).map Prod.fst
  let all_y := (point_sets.flatMap id).map Prod.snd
  let min_x := (listMin all_x).getD 0
  let min_y := (listMin all_y).getD 0
  let translate_x := max 0 (-min_x)
  let translate_y := max 0 (-min_y)
  (point_sets.map (fun pts =>
      pts.map (transformPt rotated (translate_x, translate_y) outer_height)),
   (translate_x, translate_y))

/-! ## Polygon descriptors (`src/geometry/utilis.py`)

`create_rounded_rect` / `create_rounded_box` sample quarter- and
semi-circular arcs with `math.cos` / `math.sin`; the cutout composer is
embedded with symbolic descriptors recording the exact arguments passed
to those primitives.  `Poly.roundedRect` denotes
`dedupe_consecutive_points(create_rounded_rect(...))` (the composer
always dedupes the rounded rectangles it creates) and `Poly.roundedBox`
denotes `create_rounded_box(...)`. -/

inductive Poly where
  | pts (l : List Point)
  | roundedRect (left bottom width height radius : ℚ) (segments : ℕ)
  | roundedBox (left bottom width height radius : ℚ)
deriving DecidableEq

/-- The exact (non-arc) vertices of a polygon descriptor.  For
`roundedRect` these are the eight tangent points the source appends
verbatim (utilis.py lines 77, 94-95, 100-101, 106-107, with the radius
clamp of line 66); for `roundedBox` the straight-edge vertices and the
two semicircle extreme samples (`theta ∈ {0, pi}` are exact in the
idealized real semantics).  Every arc sample lies inside the rectangle
spanned by these points, so bounding-box reasoning over `keyPts` agrees
with the idealized sampled polygon. -/
def Poly.keyPts : Poly → List Point
  | .pts l => l
  | .roundedRect left bottom width height radius _ =>
      let r := min (min radius (width / 2)) (height / 2)
      let right := left + width
      let top := bottom + height
      [(left + r, top), (right - r, top), (right, top - r), (right, bottom + r),
       (right - r, bottom), (left + r, bottom), (left, bottom + r), (left, top - r)]
  | .roundedBox left bottom width height radius =>
      let cx_left := left + radius
      let cx_right := left + width - radius
      let top := bottom + height
      let rc := min radius (height / 2)
      let mid := bottom + height / 2
      [(cx_left, top), (cx_right, top), (cx_right + rc, mid),
       (cx_left, bottom), (cx_left - rc, mid)]

/-- The `bottom` coordinate handed to the rounded-polygon primitive
(the y coordinate of the straight bottom edge of the glass panel). -/
def Poly.rectBottom? : Poly → Option ℚ
  | .pts _ => none
  | .roundedRect _ bottom _ _ _ _ => some bottom
  | .roundedBox _ bottom _ _ _ => some bottom

/-! ## Output schema (`fastapi_app/schemas_output.py`)

Only the parts of `SchemasOutput` the claims talk about are embedded:
frames, cutouts, holes, the resolved category/type/option and the
metadata scalars.  The annotation and label lists are outside every
claim and are omitted. -/

structure Frame where
  name : String
  layer : String
  points : List Point
  width : ℚ
  height : ℚ
deriving DecidableEq

structure Cutout where
  name : String
  layer : String
  poly : Poly
deriving DecidableEq

structure Hole where
  name : String
  layer : String
  center : Point
  radius : ℚ
deriving DecidableEq

structure Geometry where
  frames : List Frame
  cutouts : List Cutout
  holes : List Hole
deriving DecidableEq

structure Metadata where
  label : String
  file_name : String
  width : ℚ
  height : ℚ
  rotated : Bool
  offset : ℚ × ℚ
deriving DecidableEq

structure SchemasOutput where
  door_category : String
  door_type : String
  option : Option String
  metadata : Metadata
  geometry : Geometry
deriving DecidableEq

/-- `compute_frame_dimensions` (utilis.py lines 12-17); the source is
only applied to non-empty lists, for which the `getD 0` defaults are
never used. -/
def computeFrameDimensions (pts : List Point) : ℚ × ℚ :=
  let xs := pts.map Prod.fst
  let ys := pts.map Prod.snd
  ((listMax xs).getD 0 - (listMin xs).getD 0,
   (listMax ys).getD 0 - (listMin ys).getD 0)

/-! ## `generate_cutouts` (`src/geometry/generate_cutouts.py`) -/

/-- `_eq_str(a, b)` of generate_cutouts.py lines 53-54. -/
def eqStr (a b : String) : Bool := pyLower (pyStrip a) = pyLower (pyStrip b)

/-- The option-token normalization of generate_cutouts.py lines 31-44:
case-insensitive synonym table resolving to `Option1..Option5`, with
every unrecognized token (including the empty/absent option) mapping to
`None`. -/
def optionNormalized (option : Option String) : Option String :=
  let option_in := pyStrip (option.getD "")
  if option_in = "" then none
  else
    let lower := pyLower (pyStrip option_in)
    if lower ∈ ["option1", "option 1", "1", "standard"] then some "Option1"
    else if lower ∈ ["option2", "option 2", "2", "topfixed"] then some "Option2"
    else if lower ∈ ["option3", "option 3", "3", "bottomfixed"] then some "Option3"
    else if lower ∈ ["standard_double", "standard-double", "standarddouble"] then
      some "Option4"
    else if lower ∈ ["fourglass", "four_glass", "four-glass", "4glass", "4_glass"] then
      some "Option5"
    else none

/-- `max(p[1] for p in outer_frame_pts)` with the source's fallback: the
right leaf (`leaf_offset == inner_offset_x`) reads `frames['outer']`, the
left leaf reads `frames['left_outer']`; a missing or empty polygon falls
back to `inner_offset_y + inner_height` (generate_cutouts.py lines
194-201 and 248-253). -/
def outerFrameTopFor (frames : Frames) (inner_offset_x inner_offset_y
    inner_height leaf_offset : ℚ) : ℚ :=
  let outer_frame_pts : Option (List Point) :=
    if leaf_offset = inner_offset_x then some frames.outer else frames.left_outer
  match outer_frame_pts with
  | some (p :: ps) => (ps.map Prod.snd).foldl max p.2
  | _ => inner_offset_y + inner_height

/-- The handle cutouts of `generate_cutouts` (lines 11-14):
`left_handle` when non-empty, then `center_handle` always. -/
def handleCutsOf (handles : Handles) : List Cutout :=
  (if handles.left_handle ≠ [] then
    [{ name := "left_handle", layer := "CUT", poly := Poly.pts handles.left_handle }]
   else []) ++
  [{ name := "center_handle", layer := "CUT", poly := Poly.pts handles.right_handle }]

/-- Condition of the single-fire branch (generate_cutouts.py line 59). -/
def isSingleFireB (door : DoorInfo) : Bool :=
  eqStr door.category "single" && eqStr door.type "fire"

/-- Whether the single-fire Option5 two-panel layout is selected (the
`add_standard_glass_cutout = False` of line 74). -/
def singleO5B (door : DoorInfo) : Bool :=
  isSingleFireB door && (optionNormalized door.option == some "Option5")

/-- Condition of the double fire Option1/Option4 per-leaf branch
(generate_cutouts.py line 222). -/
def doubleO14B (p : Params) : Bool :=
  p.is_double && eqStr p.door.type "fire" &&
    (optionNormalized p.door.option == some "Option1"
      || optionNormalized p.door.option == some "Option4")

/-- Condition of the single-panel glass path (generate_cutouts.py
line 144). -/
def cond1B (p : Params) : Bool :=
  eqStr p.door.type "fire" && !(optionNormalized p.door.option == some "Option5")
    && !doubleO14B p

/-- Condition of the double-door Option5 four-panel branch
(generate_cutouts.py line 174). -/
def cond2B (p : Params) : Bool :=
  p.is_double && eqStr p.door.type "fire"
    && (optionNormalized p.door.option == some "Option5")

/-- The glass-cutout planning of `generate_cutouts` (lines 16-276):
option normalization, the single-fire margin branch and the
single-panel / four-panel / per-leaf chain with degenerate-rectangle
fallbacks.  Returns `(pts_box, glass_cutouts_to_add,
add_standard_glass_cutout)` as they stand at line 278. -/
def glassPlan (params : Params) (frames : Frames) (handles : Handles) :
    Poly × List Poly × Bool :=
  let door := params.door
  let defaults := params.defaults
  let inner_offset_x := frames.inner_offset.1
  let inner_offset_y := frames.inner_offset.2
  let inner_width := params.inner_width
  let inner_height := params.inner_height
  let is_double := params.is_double
  let leaf_width := params.leaf_width
  let shift_left := frames.shift_left.getD 0
  let bend_adjust := params.bend_adjust
  let inner_offset_x_left :=
    (frames.inner_offset_left.getD (inner_offset_x, inner_offset_y)).1
  let opt_normalized := optionNormalized door.option
  let isSingleFire := isSingleFireB door
  -- `_make_panel` (shared shape of lines 76-80, 177-181, 234-238)
  let makePanel := fun (left_abs bottom_abs width_local height_local : ℚ) =>
    if width_local ≤ 0 ∨ height_local ≤ 0 then none
    else some (Poly.roundedRect left_abs bottom_abs width_local height_local
      (min (min defaults.glass_corner_radius
          (if width_local ≠ 0 then width_local / 2 else 0))
        (if height_local ≠ 0 then height_local / 2 else 0))
      defaults.glass_segments)
  -- the default-size centered fallback box (lines 99-107, 129-138,
  -- 204-213, 262-266): anchored at `leftAnchor`, centered in a width of
  -- `widthAvail` and in the inner height
  let centeredBox := fun (leftAnchor widthAvail : ℚ) =>
    Poly.roundedBox (leftAnchor + (widthAvail - defaults.box_width) / 2)
      (inner_offset_y + (inner_height - defaults.box_height) / 2)
      defaults.box_width defaults.box_height
      (min (defaults.box_height / 2) (defaults.box_width / 2))
  -- single fire branch (lines 59-75): margin table indexed by option
  let marginsA : Option (ℚ × ℚ × ℚ × ℚ) :=
    if isSingleFire then
      let left_margin := defaults.fire_glass_lr_margin
      let right_margin := defaults.fire_glass_lr_margin
      let top_margin := defaults.fire_glass_top_margin
      let bottom_margin := defaults.fire_glass_bottom_margin
      if opt_normalized = some "Option2" then
        some (left_margin, right_margin, top_margin, inner_height / 2)
      else if opt_normalized = some "Option3" then
        some (left_margin, right_margin, inner_height / 2, bottom_margin)
      else if opt_normalized = some "Option4" then
        some (left_margin, right_margin, defaults.topMarginDouble, bottom_margin)
      else
        some (left_margin, right_margin, top_margin, bottom_margin)
    else none
  let singleO5 := singleO5B door
  let opt5TopMargin :=
    if is_double then defaults.topMarginDouble else defaults.fire_glass_top_margin
  -- lines 76-141: the stacked two-panel layout of the single-fire Option5
  -- branch.  Note: the panel bottoms/tops of the `not is_double` arm carry
  -- NO `bend_adjust` term (lines 90-96), unlike every other glass path.
  let glassA : List Poly :=
    if singleO5 then
      if !is_double then
        let glass_left_abs := inner_offset_x + defaults.fire_glass_lr_margin
        let glass_right_abs := inner_offset_x + inner_width - defaults.fire_glass_lr_margin
        let bottom1_abs := inner_offset_y + defaults.fire_glass_bottom_margin
        let top1_abs := inner_offset_y + (inner_height / 2 - 50)
        let panel1 := (makePanel glass_left_abs bottom1_abs
            (glass_right_abs - glass_left_abs) (top1_abs - bottom1_abs)).getD
          (centeredBox inner_offset_x inner_width)
        let bottom2_abs := inner_offset_y + (inner_height / 2 + 50)
        let top2_abs := inner_offset_y + inner_height - opt5TopMargin
        let panel2 := (makePanel glass_left_abs bottom2_abs
            (glass_right_abs - glass_left_abs) (top2_abs - bottom2_abs)).getD
          (centeredBox inner_offset_x inner_width)
        [panel1, panel2]
      else
        -- lines 111-141 (unreachable: `is_double` is false whenever the
        -- category equals "single", which this branch requires)
        let mkLeaf := fun (leaf_offset : ℚ) =>
          let glass_left_abs := leaf_offset + defaults.fire_glass_lr_margin
          let glass_right_abs := leaf_offset + leaf_width - defaults.fire_glass_lr_margin
          let bottom1_abs := inner_offset_y + defaults.fire_glass_bottom_margin + bend_adjust
          let top1_abs := inner_offset_y + (inner_height / 2 - 50)
          let p1 := (makePanel glass_left_abs bottom1_abs
              (glass_right_abs - glass_left_abs) (top1_abs - bottom1_abs)).getD
            (centeredBox leaf_offset leaf_width)
          let bottom2_abs := inner_offset_y + (inner_height / 2 + 50)
          let top2_abs := inner_offset_y + inner_height - opt5TopMargin + bend_adjust
          let p2 := (makePanel glass_left_abs bottom2_abs
              (glass_right_abs - glass_left_abs) (top2_abs - bottom2_abs)).getD
            (centeredBox leaf_offset leaf_width)
          [p1, p2]
        mkLeaf inner_offset_x ++ mkLeaf (inner_offset_x_left - shift_left)
    else []
  -- the if/elif/elif/else chain of lines 144-276; the result is
  -- (pts_box, glass panels appended by the chain, add_standard cleared)
  let doubleO14 := doubleO14B params
  let cond1 := cond1B params
  let cond2 := cond2B params
  let chain : Option Poly × List Poly × Bool :=
    if cond1 then
      -- single-panel glass path (lines 144-171); `locals().get(...)`
      -- yields the branch-A margins when they were bound, else `box_gap`
      let left_margin := (marginsA.map (·.1)).getD defaults.box_gap
      let right_margin := (marginsA.map (·.2.1)).getD defaults.box_gap
      let top_margin := (marginsA.map (·.2.2.1)).getD defaults.box_gap
      let bottom_margin := (marginsA.map (·.2.2.2)).getD defaults.box_gap
      let glass_left_local := left_margin
      let glass_right_local := inner_width - right_margin
      let glass_bottom_local := bottom_margin
      let glass_top_local := inner_height - top_margin
      let lbwh :=
        if glass_right_local ≤ glass_left_local ∨ glass_top_local ≤ glass_bottom_local then
          let glass_w := defaults.box_width
          let glass_h := defaults.box_height
          ((inner_width - glass_w) / 2, (inner_height - glass_h) / 2, glass_w, glass_h)
        else
          (glass_left_local, glass_bottom_local,
           glass_right_local - glass_left_local, glass_top_local - glass_bottom_local)
      let glass_left := inner_offset_x + lbwh.1
      let glass_bottom := inner_offset_y + lbwh.2.1 + bend_adjust
      let glass_w := lbwh.2.2.1
      let glass_h := lbwh.2.2.2
      let radius := min (min defaults.glass_corner_radius
          (if glass_w ≠ 0 then glass_w / 2 else 0))
        (if glass_h ≠ 0 then glass_h / 2 else 0)
      (some (Poly.roundedRect glass_left glass_bottom glass_w glass_h radius
        defaults.glass_segments), [], false)
    else if cond2 then
      -- double-door Option5: four panels (lines 174-216)
      let mkLeaf2 := fun (leaf_offset : ℚ) =>
        let glass_left_abs := leaf_offset + defaults.fire_glass_lr_margin
        let glass_right_abs := leaf_offset + leaf_width - defaults.fire_glass_lr_margin
        let bottom1_abs := inner_offset_y + defaults.fire_glass_bottom_margin + bend_adjust
        let top1_abs := inner_offset_y + (inner_height / 2 - 50) + bend_adjust
        let p1 := (makePanel glass_left_abs bottom1_abs
            (glass_right_abs - glass_left_abs) (top1_abs - bottom1_abs)).getD
          (centeredBox leaf_offset leaf_width)
        let bottom2_abs := inner_offset_y + (inner_height / 2 + 50) + bend_adjust
        let outer_frame_top :=
          outerFrameTopFor frames inner_offset_x inner_offset_y inner_height leaf_offset
        let top2_abs := outer_frame_top - defaults.topMarginDouble
        let p2 := (makePanel glass_left_abs bottom2_abs
            (glass_right_abs - glass_left_abs) (top2_abs - bottom2_abs)).getD
          (centeredBox leaf_offset leaf_width)
        [p1, p2]
      (none, mkLeaf2 inner_offset_x ++ mkLeaf2 (inner_offset_x_left - shift_left), true)
    else if doubleO14 then
      -- double fire Option1/Option4: one panel per leaf (lines 222-268)
      let top_margin :=
        if opt_normalized = some "Option4" then defaults.topMarginDouble
        else defaults.fire_glass_top_margin
      let bottom_margin := defaults.fire_glass_bottom_margin
      let mkLeaf3 := fun (leaf_offset : ℚ) =>
        let glass_left_abs := leaf_offset + defaults.fire_glass_lr_margin
        let glass_right_abs := leaf_offset + leaf_width - defaults.fire_glass_lr_margin
        let glass_bottom_abs := inner_offset_y + bottom_margin + bend_adjust
        let outer_frame_top :=
          outerFrameTopFor frames inner_offset_x inner_offset_y inner_height leaf_offset
        let glass_top_abs := outer_frame_top - top_margin
        (makePanel glass_left_abs glass_bottom_abs
            (glass_right_abs - glass_left_abs) (glass_top_abs - glass_bottom_abs)).getD
          (centeredBox leaf_offset leaf_width)
      (none, [mkLeaf3 inner_offset_x, mkLeaf3 (inner_offset_x_left - shift_left)], true)
    else
      -- fallback (lines 270-272): the right-handle box is reused
      (some (Poly.pts handles.right_handle), [], false)
  let pts_box := chain.1.getD (Poly.pts handles.right_handle)
  let add_standard := !singleO5 && !chain.2.2
  let glass_all := glassA ++ chain.2.1
  (pts_box, glass_all, add_standard)

/-- The glass cutouts of `generate_cutouts` (lines 278-289): either the
single `glass_cut` box, or the planned panels named positionally
(`glass_bottom`/`glass_top` for single doors, the four `_right`/`_left`
variants for double doors, `glass_panel_N` past those). -/
def glassCutsOf (params : Params) (frames : Frames) (handles : Handles) :
    List Cutout :=
  let plan := glassPlan params frames handles
  if plan.2.2 then
    [{ name := "glass_cut", layer := "CUT", poly := plan.1 }]
  else
    let names : List String :=
      if !params.is_double then ["glass_bottom", "glass_top"]
      else ["glass_bottom_right", "glass_top_right", "glass_bottom_left", "glass_top_left"]
    plan.2.1.enum.map (fun ip =>
      { name := names.getD ip.1 ("glass_panel_" ++ ⟨Nat.toDigits 10 (ip.1 + 1)⟩)
        layer := "CUT", poly := ip.2 })

/-- The fire-door keybox cutout of `generate_cutouts` (lines 292-324). -/
def keyboxCutsOf (params : Params) (frames : Frames) : List Cutout :=
  let door := params.door
  let defaults := params.defaults
  let inner_offset_x := frames.inner_offset.1
  let inner_offset_y := frames.inner_offset.2
  let is_double := params.is_double
  if pyLower (pyStrip door.type) = "fire" then
    let kb_w := defaults.keybox_width
    let kb_h := defaults.keybox_height
    let kb_bottom_local := defaults.keybox_bottom_offset + params.bend_adjust
    let kb_left :=
      if is_double then inner_offset_x + params.leaf_width / 2 - kb_w / 2
      else inner_offset_x + (params.inner_width / 2 - kb_w / 2)
    let kb_bottom := inner_offset_y + kb_bottom_local
    [{ name := "keybox", layer := "CUT",
       poly := Poly.pts
         [(kb_left, kb_bottom), (kb_left + kb_w, kb_bottom),
          (kb_left + kb_w, kb_bottom + kb_h), (kb_left, kb_bottom + kb_h),
          (kb_left, kb_bottom)] }]
  else []

/-- `generate_cutouts(params, frames, handles)`: handle cutouts, the
option-dependent glass cutouts and the fire-door keybox, in the order the
source appends them.  `frames` and `handles` are the dictionaries as they
stand when the orchestrator calls this, i.e. with the frame/handle
polygons already transformed while `frames["inner_offset"]` still holds
the untransformed local offset. -/
def generateCutouts (params : Params) (frames : Frames) (handles : Handles) :
    List Cutout :=
  handleCutsOf handles ++ glassCutsOf params frames handles
    ++ keyboxCutsOf params frames

/-! ## `generate_holes` (`src/geometry/generate_holes.py`) -/

/-- `generate_holes(params, frames)`: the two circular holes, placed in
the untransformed local coordinates of `frames["inner_offset"]`. -/
def generateHoles (params : Params) (frames : Frames) : List Hole :=
  let defaults := params.defaults
  let inner_offset_x := frames.inner_offset.1
  let inner_offset_y := frames.inner_offset.2
  let circle_center_x := inner_offset_x + defaults.left_circle_offset
  let circle_center_y_top := params.inner_height - defaults.top_circle_offset
    + inner_offset_y + params.bend_adjust
  let circle_center_y_bottom := defaults.top_circle_offset + inner_offset_y
    + params.bend_adjust
  [{ name := "hole_top", layer := "CUT",
     center := (circle_center_x, circle_center_y_top), radius := defaults.circle_radius },
   { name := "hole_bottom", layer := "CUT",
     center := (circle_center_x, circle_center_y_bottom), radius := defaults.circle_radius }]

/-! ## `compute_door_geometry` (`src/geometry/door_geometry.py`) -/

/-- Map one pointwise function over every frame/handle point set, the way
the orchestrator maps the transformed sets back (door_geometry.py lines
67-74) and the normalization shift (lines 100-111): a set that the source
skips for being empty or `None` is unchanged, and mapping over an empty
list or a `none` is the identity, so the mapping is unconditional. -/
def mapFH (f : Point → Point) (fr : Frames) (h : Handles) : Frames × Handles :=
  ({ fr with
      outer := fr.outer.map f
      inner := fr.inner.map f
      left_outer := fr.left_outer.map (List.map f)
      left_inner := fr.left_inner.map (List.map f) },
   { right_handle := h.right_handle.map f
     left_handle := h.left_handle.map f })

/-- All frame and handle points of the pipeline state, in the order the
second normalization of the orchestrator collects them (door_geometry.py
lines 80-93: the four frame keys, then the handles dict values). -/
def framesHandlesPts (fr : Frames) (h : Handles) : List Point :=
  fr.outer ++ fr.inner ++ fr.left_outer.getD [] ++ fr.left_inner.getD []
    ++ h.right_handle ++ h.left_handle

/-- The second normalization (door_geometry.py lines 76-111): gather
every frame/handle point; when any exists and the joint minimum is not
already (0, 0), shift every set so the joint bounding-box minimum becomes
exactly (0, 0). -/
def normalizeFH (fr : Frames) (h : Handles) : Frames × Handles :=
  let normPts := framesHandlesPts fr h
  match listMin (normPts.map Prod.fst), listMin (normPts.map Prod.snd) with
  | some min_all_x, some min_all_y =>
      if min_all_x ≠ 0 ∨ min_all_y ≠ 0 then
        mapFH (fun p => (p.1 - min_all_x, p.2 - min_all_y)) fr h
      else (fr, h)
  | _, _ => (fr, h)

/-- Lines 24-111 of door_geometry.py: build the base frames and handles,
apply the shared transform to the frame/handle point sets (the source
collects every non-empty one of outer, inner, right_handle, left_handle,
left_outer, left_inner into `all_sets`), then re-normalize those same
sets so their joint bounding-box minimum is (0, 0).  The glass/keybox
cutouts and the holes are generated afterwards and never pass through
this transform. -/
def pipelineCore (params : Params) (rotated : Bool) : Frames × Handles :=
  let frames := createBaseFrames params
  let handles := createHandles params frames
  let allPts : List Point :=
    frames.outer ++ frames.inner ++ handles.right_handle ++ handles.left_handle
      ++ frames.left_outer.getD [] ++ frames.left_inner.getD []
  if allPts = [] then (frames, handles)
  else
    let min_x := (listMin (allPts.map Prod.fst)).getD 0
    let min_y := (listMin (allPts.map Prod.snd)).getD 0
    let T := transformPt rotated (max 0 (-min_x), max 0 (-min_y)) frames.outer_height
    let fh1 := mapFH T frames handles
    normalizeFH fh1.1 fh1.2

/-- The `Frame` objects the orchestrator builds (door_geometry.py lines
113-130): outer and inner always (when non-empty), then the left pair;
the key-presence test `"left_outer" in frames` is always true in the
source (the key is stored with value `None` for single doors), so only
the `if not pts` guard is discriminating. -/
def buildFrameObjs (framesT : Frames) : List Frame :=
  let mk := fun (name : String) (pts : List Point) =>
    { name := name, layer := "CUT", points := pts
      width := (computeFrameDimensions pts).1
      height := (computeFrameDimensions pts).2 : Frame }
  (if framesT.outer ≠ [] then [mk "outer" framesT.outer] else []) ++
  (if framesT.inner ≠ [] then [mk "inner" framesT.inner] else []) ++
  (match framesT.left_outer with
   | some pts => if pts ≠ [] then [mk "left_outer" pts] else []
   | none => []) ++
  (match framesT.left_inner with
   | some pts => if pts ≠ [] then [mk "left_inner" pts] else []
   | none => [])

/-- Whether `s` starts with the characters of `pre` (Python
`s.startswith(pre)`). -/
def strStartsWith (s pre : String) : Bool := s.data.take pre.data.length == pre.data

/-- The orchestrator's own option normalization (door_geometry.py lines
170-191).  Note it is a different table from `optionNormalized`:
"standard" maps to Option4 here, "topfixed"/"bottomfixed" map to `None`,
and bare "optionN" tokens are accepted for N in 1..5. -/
def orchestratorOption (raw_option : Option String) : Option String :=
  match raw_option with
  | none => none
  | some r =>
      if r = "" then none
      else
        let o := pyLower (pyStrip r)
        if o ∈ ["standard", "standard_double", "standard-double", "standarddouble"] then
          some "Option4"
        else if o ∈ ["fourglass", "four_glass", "four-glass"] then some "Option5"
        else if strStartsWith o "option" && ((o.data.drop 6) ≠ []
            && (o.data.drop 6).all isDigitChar) then
          let num := digitsToNat (o.data.drop 6)
          if 1 ≤ num ∧ num ≤ 5 then some ("Option" ++ ⟨[Char.ofNat (48 + num)]⟩)
          else none
        else none

/-- `compute_door_geometry(request, rotated, offset)`: the full
orchestrator.  The `ValueError` of `prepare_dimensions` propagates as
`Except.error` with no partial scene; on success the assembled
`SchemasOutput` is returned. -/
def computeDoorGeometry (request : DoorDXFRequest) (rotated : Bool)
    (offset : ℚ × ℚ) : Except String SchemasOutput :=
  match prepareDimensions request with
  | Except.error e => Except.error e
  | Except.ok params =>
      let fh := pipelineCore params rotated
      let framesT := fh.1
      let handlesT := fh.2
      let frameObjs := buildFrameObjs framesT
      let cutouts := generateCutouts params framesT handlesT
      let holes := generateHoles params framesT
      let outer_pts := framesT.outer
      let all_frame_points := outer_pts ++ framesT.left_outer.getD []
      let overall_w :=
        if all_frame_points ≠ [] then (computeFrameDimensions all_frame_points).1 else 0
      let raw_type := pyLower (pyStrip params.door.type)
      let door_type_normalized := if raw_type = "fire" then "Fire" else "Normal"
      Except.ok
        { door_category := params.door.category
          door_type := door_type_normalized
          option := orchestratorOption params.door.option
          metadata :=
            { label := request.metadata.label
              file_name := request.metadata.file_name
              width := overall_w
              height := framesT.outer_height
              rotated := rotated
              offset := offset }
          geometry :=
            { frames := frameObjs
              cutouts := cutouts
              holes := holes } }

/-! ## Helper functions for the statements -/

/-- Minimum of two optional rationals (`none` is the neutral element). -/
def omin : Option ℚ → Option ℚ → Option ℚ
  | none, y => y
  | some x, none => some x
  | some x, some y => some (min x y)

/-- Minimum x coordinate of a point list. -/
def minXOf (l : List Point) : Option ℚ := listMin (l.map Prod.fst)

/-- Minimum y coordinate of a point list. -/
def minYOf (l : List Point) : Option ℚ := listMin (l.map Prod.snd)

/-- Every point of every `Frame` polygon of a scene. -/
def sceneFramePts (out : SchemasOutput) : List Point :=
  out.geometry.frames.flatMap Frame.points

/-- Every point of the handle cutouts (`left_handle` / `center_handle`)
of a scene. -/
def handleCutPts (out : SchemasOutput) : List Point :=
  (out.geometry.cutouts.filter
    (fun c => c.name == "center_handle" || c.name == "left_handle")).flatMap
    (fun c => c.poly.keyPts)

/-- The first cutout of a scene with the given name. -/
def cutoutNamed (out : SchemasOutput) (name : String) : Option Cutout :=
  (out.geometry.cutouts.filter (fun c => c.name == name)).head?

/-- The rounded-rectangle bottom coordinate of the named cutout of a
(successful) result. -/
def sceneRectBottom (r : Except String SchemasOutput) (name : String) : Option ℚ :=
  match r with
  | Except.ok o =>
      match cutoutNamed o name with
      | some c => c.poly.rectBottom?
      | none => none
  | Except.error _ => none

/-- Minimum x coordinate over every frame point, cutout key point and
hole center of a (successful) result. -/
def sceneMinX (r : Except String SchemasOutput) : Option ℚ :=
  match r with
  | Except.ok o =>
      minXOf (sceneFramePts o ++ o.geometry.cutouts.flatMap (fun c => c.poly.keyPts)
        ++ o.geometry.holes.map Hole.center)
  | Except.error _ => none

/-- Two points differ by more than `eps` in x or in y (the separation
`dedupe_consecutive_points` establishes between the points it keeps). -/
def farApart (p q : Point) : Prop := eps < |q.1 - p.1| ∨ eps < |q.2 - p.2|

/-- A closed polygon with at least 4 points (first point equals last,
length at least 4). -/
def closed4 (l : List Point) : Prop := l.head? = l.getLast? ∧ 4 ≤ l.length

/-! ## Concrete configurations used by witnesses and counterexamples

`stdDefaults` is the defaults record of `schemas_input.py` (its field
defaults), completed with the double-door constants the geometry code
reads (`double_door_gap := 4`, `bending_width_double_door := 31`, no
`fire_glass_top_margin_double`). -/

def stdDefaults : DefaultInfo :=
  { door_minus_measurement_width := 68
    door_minus_measurement_height := 70
    bending_width := 31
    bending_height := 24
    bend_adjust := 12
    box_gap := 30
    box_width := 22
    box_height := 112
    glass_corner_radius := 20
    glass_segments := 8
    circle_radius := 5
    left_circle_offset := 40
    top_circle_offset := 150
    keybox_width := 70
    keybox_height := 40
    keybox_bottom_offset := 50
    fire_glass_lr_margin := 190
    fire_glass_top_margin := 170
    fire_glass_bottom_margin := 240
    double_door_gap := 4
    bending_width_double_door := 31
    fire_glass_top_margin_double := none }

/-- A request with the standard defaults and 25-unit allowances. -/
def mkReq (cat ty : String) (opt : Option String) (ho : String) (w h : ℚ) :
    DoorDXFRequest :=
  { door := { category := cat, type := ty, option := opt, hole_offset := ho }
    dimensions :=
      { width_measurement := w, height_measurement := h
        left_side_allowance_width := 25, right_side_allowance_width := 25
        top_side_allowance_height := 25, bottom_side_allowance_height := 25 }
    metadata := { label := "door", file_name := "door.dxf" }
    defaults := stdDefaults }

/-- Single normal door, 600 x 800, with a parsable hole offset. -/
def reqSingle : DoorDXFRequest := mkReq "Single" "normal" none "80x40" 600 800

/-- Single normal door with an unparsable hole offset. -/
def reqGarbage : DoorDXFRequest := mkReq "Single" "normal" none "garbage" 600 800

/-- Double fire door, option "standard", 1240 x 1615. -/
def reqDoubleFire : DoorDXFRequest := mkReq "Double" "Fire" (some "standard") "" 1240 1615

/-- Single fire door, option "fourglass", 895 x 1765. -/
def reqFourglass : DoorDXFRequest := mkReq "Single" "Fire" (some "fourglass") "" 895 1765

/-- Single fire door, option "standard", 895 x 1765. -/
def reqSingleFire : DoorDXFRequest := mkReq "Single" "Fire" (some "standard") "" 895 1765

/-- Single fire door, option "topfixed", with a height small enough to
make the computed glass rectangle degenerate. -/
def reqDegenerate : DoorDXFRequest := mkReq "Single" "Fire" (some "topfixed") "" 600 300

/-- The parameter record `prepare_dimensions` derives from
`reqDoubleFire` (checked by evaluation below). -/
def paramsDoubleFire : Params :=
  { door := { category := "Double", type := "Fire", option := some "standard",
              hole_offset := "" }
    defaults := stdDefaults
    inner_width := 1218, inner_height := 1595, leaf_width := 609, gap := 4
    is_double := true, bending_width := 31, bending_height := 24
    bending_width_double_door := 31, bend_adjust := 12 }

/-- The parameter record derived from `reqSingle`. -/
def paramsSingle : Params :=
  { door := { category := "Single", type := "normal", option := none,
              hole_offset := "80x40" }
    defaults := { stdDefaults with left_circle_offset := 40, top_circle_offset := 80 }
    inner_width := 582, inner_height := 780, leaf_width := 582, gap := 0
    is_double := false, bending_width := 31, bending_height := 24
    bending_width_double_door := 31, bend_adjust := 12 }


/-- Whether a successful result contains a cutout with the given name. -/
def sceneHasCutout (r : Except String SchemasOutput) (nm : String) : Bool :=
  match r with
  | Except.ok o => o.geometry.cutouts.any (fun c => c.name == nm)
  | Except.error _ => false

/-- The joint bounding-box minimum (x, y) of the frame polygons and the
handle cutouts of a successful result — the point sets the orchestrator
passes through the shared transform and the second normalization. -/
def sceneNormMin (r : Except String SchemasOutput) : Option ℚ × Option ℚ :=
  match r with
  | Except.ok o =>
      (minXOf (sceneFramePts o ++ handleCutPts o),
       minYOf (sceneFramePts o ++ handleCutPts o))
  | Except.error _ => (none, none)

/-- Whether every frame polygon of a successful result is closed with at
least 4 points. -/
def sceneFramesClosed (r : Except String SchemasOutput) : Bool :=
  match r with
  | Except.ok o =>
      o.geometry.frames.all (fun f =>
        (f.points.head? == f.points.getLast?) && decide (4 ≤ f.points.length))
  | Except.error _ => false

/-- Whether every explicitly rectangular cutout polygon (handles, keybox,
fallback `glass_cut`) of a successful result is closed with at least 4
points. -/
def sceneRectCutsClosed (r : Except String SchemasOutput) : Bool :=
  match r with
  | Except.ok o =>
      o.geometry.cutouts.all (fun c =>
        match c.poly with
        | Poly.pts l => (l.head? == l.getLast?) && decide (4 ≤ l.length)
        | _ => true)
  | Except.error _ => false


/-- Every token the cutout-composer synonym table recognizes
(generate_cutouts.py lines 35-44). -/
def recognizedCutoutTokens : List String :=
  ["option1", "option 1", "1", "standard",
   "option2", "option 2", "2", "topfixed",
   "option3", "option 3", "3", "bottomfixed",
   "standard_double", "standard-double", "standarddouble",
   "fourglass", "four_glass", "four-glass", "4glass", "4_glass"]

/-- The option field of a successful result. -/
def sceneOption (r : Except String SchemasOutput) : Option String :=
  match r with
  | Except.ok o => o.option
  | Except.error _ => none


/-- The parameter record derived from `reqFourglass`. -/
def paramsFourglass : Params :=
  { door := { category := "Single", type := "Fire", option := some "fourglass",
              hole_offset := "" }
    defaults := stdDefaults
    inner_width := 877, inner_height := 1745, leaf_width := 877, gap := 0
    is_double := false, bending_width := 31, bending_height := 24
    bending_width_double_door := 31, bend_adjust := 12 }

/-- The parameter record derived from `reqSingleFire`. -/
def paramsSingleFire : Params :=
  { door := { category := "Single", type := "Fire", option := some "standard",
              hole_offset := "" }
    defaults := stdDefaults
    inner_width := 877, inner_height := 1745, leaf_width := 877, gap := 0
    is_double := false, bending_width := 31, bending_height := 24
    bending_width_double_door := 31, bend_adjust := 12 }


/-- The parameter record derived from `reqDegenerate`. -/
def paramsDegenerate : Params :=
  { door := { category := "Single", type := "Fire", option := some "topfixed",
              hole_offset := "" }
    defaults := stdDefaults
    inner_width := 582, inner_height := 280, leaf_width := 582, gap := 0
    is_double := false, bending_width := 31, bending_height := 24
    bending_width_double_door := 31, bend_adjust := 12 }

/-! ## General lemmas -/

set_option maxRecDepth 8000

theorem foldl_min_eq : ∀ (l : List ℚ) (a : ℚ),
    l.foldl min a = match listMin l with | none => a | some m => min a m
  | [], _ => rfl
  | y :: ys, a => by
      show ys.foldl min (min a y) = min a (ys.foldl min y)
      rw [foldl_min_eq ys (min a y), foldl_min_eq ys y]
      cases listMin ys with
      | none => rfl
      | some m => exact min_assoc a y m

theorem listMin_append (a b : List ℚ) :
    listMin (a ++ b) = omin (listMin a) (listMin b) := by
  cases a with
  | nil => rfl
  | cons x xs =>
      have h1 : listMin ((x :: xs) ++ b) = some ((xs ++ b).foldl min x) := rfl
      have h2 : listMin (x :: xs) = some (xs.foldl min x) := rfl
      rw [h1, h2, List.foldl_append, foldl_min_eq b]
      cases hb : listMin b with
      | none => rfl
      | some m => rfl

theorem omin_comm (x y : Option ℚ) : omin x y = omin y x := by
  cases x <;> cases y <;> simp [omin, min_comm]

theorem foldl_min_map_sub (m : ℚ) :
    ∀ (l : List ℚ) (a : ℚ),
      (l.map (fun x => x - m)).foldl min (a - m) = (l.foldl min a) - m
  | [], _ => rfl
  | y :: ys, a => by
      show (ys.map (fun x => x - m)).foldl min (min (a - m) (y - m)) = _
      rw [min_sub_sub_right, foldl_min_map_sub m ys (min a y)]
      rfl

theorem listMin_map_sub (l : List ℚ) (m : ℚ) :
    listMin (l.map (fun x => x - m)) = (listMin l).map (fun x => x - m) := by
  cases l with
  | nil => rfl
  | cons x xs =>
      show some ((xs.map (fun x => x - m)).foldl min (x - m)) = _
      rw [foldl_min_map_sub m xs x]
      rfl

theorem framesHandlesPts_mapFH (f : Point → Point) (fr : Frames) (h : Handles) :
    framesHandlesPts (mapFH f fr h).1 (mapFH f fr h).2
      = (framesHandlesPts fr h).map f := by
  cases ho : fr.left_outer <;> cases hi : fr.left_inner <;>
    simp [framesHandlesPts, mapFH, ho, hi]

theorem minXOf_map_shift (l : List Point) (mx my : ℚ) :
    minXOf (l.map (fun p => (p.1 - mx, p.2 - my)))
      = (minXOf l).map (fun x => x - mx) := by
  unfold minXOf
  rw [show (l.map (fun p => (p.1 - mx, p.2 - my))).map Prod.fst
      = (l.map Prod.fst).map (fun x => x - mx) by
    simp [List.map_map]]
  exact listMin_map_sub _ mx

theorem minYOf_map_shift (l : List Point) (mx my : ℚ) :
    minYOf (l.map (fun p => (p.1 - mx, p.2 - my)))
      = (minYOf l).map (fun y => y - my) := by
  unfold minYOf
  rw [show (l.map (fun p => (p.1 - mx, p.2 - my))).map Prod.snd
      = (l.map Prod.snd).map (fun y => y - my) by
    simp [List.map_map]]
  exact listMin_map_sub _ my

/-- The second normalization leaves the joint bounding-box minimum of
the frame/handle point sets at exactly (0, 0) whenever any point
exists. -/
theorem normalizeFH_min (fr : Frames) (h : Handles)
    (hne : framesHandlesPts fr h ≠ []) :
    minXOf (framesHandlesPts (normalizeFH fr h).1 (normalizeFH fr h).2) = some 0 ∧
    minYOf (framesHandlesPts (normalizeFH fr h).1 (normalizeFH fr h).2) = some 0 := by
  obtain ⟨p, rest, hl⟩ : ∃ p rest, framesHandlesPts fr h = p :: rest := by
    cases hl : framesHandlesPts fr h with
    | nil => exact absurd hl hne
    | cons p rest => exact ⟨p, rest, rfl⟩
  have hx : ∃ mx, listMin ((framesHandlesPts fr h).map Prod.fst) = some mx := by
    rw [hl]; exact ⟨_, rfl⟩
  have hy : ∃ my, listMin ((framesHandlesPts fr h).map Prod.snd) = some my := by
    rw [hl]; exact ⟨_, rfl⟩
  obtain ⟨mx, hmx⟩ := hx
  obtain ⟨my, hmy⟩ := hy
  have key : normalizeFH fr h
      = if mx ≠ 0 ∨ my ≠ 0 then mapFH (fun p => (p.1 - mx, p.2 - my)) fr h
        else (fr, h) := by
    show (match listMin ((framesHandlesPts fr h).map Prod.fst),
            listMin ((framesHandlesPts fr h).map Prod.snd) with
      | some min_all_x, some min_all_y =>
          if min_all_x ≠ 0 ∨ min_all_y ≠ 0 then
            mapFH (fun p => (p.1 - min_all_x, p.2 - min_all_y)) fr h
          else (fr, h)
      | _, _ => (fr, h)) = _
    rw [hmx, hmy]
  rw [key]
  by_cases hz : mx ≠ 0 ∨ my ≠ 0
  · rw [if_pos hz]
    rw [framesHandlesPts_mapFH, minXOf_map_shift, minYOf_map_shift]
    rw [show minXOf (framesHandlesPts fr h) = some mx from hmx,
        show minYOf (framesHandlesPts fr h) = some my from hmy]
    simp
  · rw [if_neg hz]
    push_neg at hz
    constructor
    · rw [show minXOf (framesHandlesPts fr h) = some mx from hmx, hz.1]
    · rw [show minYOf (framesHandlesPts fr h) = some my from hmy, hz.2]

theorem createBaseFrames_outer_ne (p : Params) : (createBaseFrames p).outer ≠ [] := by
  unfold createBaseFrames
  dsimp only
  cases hb : p.is_double <;> simp [hb]

theorem mapFH_id (fr : Frames) (h : Handles) : mapFH (fun p => p) fr h = (fr, h) := by
  cases fr; cases h; simp [mapFH]

theorem mapFH_comp (g2 g1 : Point → Point) (fr : Frames) (h : Handles) :
    mapFH g2 (mapFH g1 fr h).1 (mapFH g1 fr h).2 = mapFH (fun p => g2 (g1 p)) fr h := by
  cases fr; cases h
  simp only [mapFH, List.map_map, Option.map_map, List.map_comp_map, Function.comp_def]

theorem normalizeFH_eq_mapFH (fr : Frames) (h : Handles) :
    ∃ g, normalizeFH fr h = mapFH g fr h := by
  unfold normalizeFH
  dsimp only
  split
  · split
    · exact ⟨_, rfl⟩
    · exact ⟨fun p => p, (mapFH_id fr h).symm⟩
  · exact ⟨fun p => p, (mapFH_id fr h).symm⟩

theorem pipelineCore_eq_normalize (p : Params) (r : Bool) :
    ∃ fr1 h1, pipelineCore p r = normalizeFH fr1 h1 ∧ framesHandlesPts fr1 h1 ≠ [] := by
  have hone : (createBaseFrames p).outer ≠ [] := createBaseFrames_outer_ne p
  unfold pipelineCore
  dsimp only
  rw [if_neg (by simp [List.append_eq_nil, hone])]
  refine ⟨_, _, rfl, ?_⟩
  rw [framesHandlesPts_mapFH]
  simp only [ne_eq, List.map_eq_nil_iff]
  simp [framesHandlesPts, List.append_eq_nil, hone]

theorem pipelineCore_min (p : Params) (r : Bool) :
    minXOf (framesHandlesPts (pipelineCore p r).1 (pipelineCore p r).2) = some 0 ∧
    minYOf (framesHandlesPts (pipelineCore p r).1 (pipelineCore p r).2) = some 0 := by
  obtain ⟨fr1, h1, heq, hne⟩ := pipelineCore_eq_normalize p r
  rw [heq]
  exact normalizeFH_min fr1 h1 hne

theorem pipelineCore_shape (p : Params) (r : Bool) :
    ∃ g, pipelineCore p r
      = mapFH g (createBaseFrames p) (createHandles p (createBaseFrames p)) := by
  unfold pipelineCore
  dsimp only
  split
  · exact ⟨fun p => p, (mapFH_id _ _).symm⟩
  · obtain ⟨g2, hg2⟩ := normalizeFH_eq_mapFH
      (mapFH (transformPt r _ (createBaseFrames p).outer_height) (createBaseFrames p)
        (createHandles p (createBaseFrames p))).1
      (mapFH (transformPt r _ (createBaseFrames p).outer_height) (createBaseFrames p)
        (createHandles p (createBaseFrames p))).2
    rw [hg2, mapFH_comp]
    exact ⟨_, rfl⟩

theorem ite_self_nil (l : List Point) : (if l ≠ [] then l else []) = l := by
  by_cases h : l = [] <;> simp [h]

theorem buildFrameObjs_pts (fr : Frames) :
    (buildFrameObjs fr).flatMap Frame.points
      = fr.outer ++ fr.inner ++ fr.left_outer.getD [] ++ fr.left_inner.getD [] := by
  obtain ⟨o, i, oh, io, lo, li, sl, iol⟩ := fr
  rcases lo with _ | lo <;> rcases li with _ | li <;>
    by_cases ho : o = [] <;> by_cases hi : i = [] <;>
    simp [buildFrameObjs, ho, hi] <;>
    (try by_cases h1 : lo = []) <;> (try by_cases h2 : li = []) <;> simp [*]

theorem glass_panel_name_head (s : String) :
    ("glass_panel_" ++ s).data.head? = some 'g' := by
  rw [String.data_append]
  rfl

theorem glass_name_head (b : Bool) (i : ℕ) (s : String) :
    (((if b then ["glass_bottom", "glass_top"]
       else ["glass_bottom_right", "glass_top_right",
             "glass_bottom_left", "glass_top_left"]).getD i
      ("glass_panel_" ++ s))).data.head? = some 'g' := by
  cases b
  · match i with
    | 0 => rfl
    | 1 => rfl
    | 2 => rfl
    | 3 => rfl
    | (n + 4) => exact glass_panel_name_head s
  · match i with
    | 0 => rfl
    | 1 => rfl
    | (n + 2) => exact glass_panel_name_head s

theorem glassCutsOf_name_head (p : Params) (fr : Frames) (h : Handles) :
    ∀ c ∈ glassCutsOf p fr h,
      c.name = "glass_cut" ∨ c.name.data.head? = some 'g' := by
  intro c hc
  unfold glassCutsOf at hc
  dsimp only at hc
  split at hc
  · rw [List.mem_singleton] at hc
    left
    rw [hc]
  · obtain ⟨ip, hmem, hip⟩ := List.mem_map.1 hc
    subst hip
    right
    exact glass_name_head (!p.is_double) ip.1 _

theorem head_g_ne_center (nm : String) (hg : nm.data.head? = some 'g') :
    (nm == "center_handle") = false ∧ (nm == "left_handle") = false := by
  constructor <;>
  · rw [beq_eq_false_iff_ne]
    intro heq
    rw [heq] at hg
    exact absurd hg (by decide)

theorem glassCutsOf_not_handle (p : Params) (fr : Frames) (h : Handles) :
    ∀ c ∈ glassCutsOf p fr h,
      (c.name == "center_handle" || c.name == "left_handle") = false := by
  intro c hc
  rcases glassCutsOf_name_head p fr h c hc with hg | hg
  · rw [hg]
    rfl
  · obtain ⟨h1, h2⟩ := head_g_ne_center c.name hg
    rw [h1, h2]
    rfl

theorem keyboxCutsOf_not_handle (p : Params) (fr : Frames) :
    ∀ c ∈ keyboxCutsOf p fr,
      (c.name == "center_handle" || c.name == "left_handle") = false := by
  intro c hc
  unfold keyboxCutsOf at hc
  dsimp only at hc
  split at hc
  · rw [List.mem_singleton] at hc
    have hname : c.name = "keybox" := by rw [hc]
    rw [hname]
    rfl
  · exact absurd hc (List.not_mem_nil c)

/-- Filtering the generated cutouts for the handle names yields exactly
the handle cutouts. -/
theorem generateCutouts_filter_handles (p : Params) (fr : Frames) (h : Handles) :
    (generateCutouts p fr h).filter
        (fun c => c.name == "center_handle" || c.name == "left_handle")
      = handleCutsOf h := by
  have hg : (glassCutsOf p fr h).filter
      (fun c => c.name == "center_handle" || c.name == "left_handle") = [] :=
    List.filter_eq_nil_iff.2 (fun c hc => by
      simp only [Bool.not_eq_true]
      exact glassCutsOf_not_handle p fr h c hc)
  have hk : (keyboxCutsOf p fr).filter
      (fun c => c.name == "center_handle" || c.name == "left_handle") = [] :=
    List.filter_eq_nil_iff.2 (fun c hc => by
      simp only [Bool.not_eq_true]
      exact keyboxCutsOf_not_handle p fr c hc)
  unfold generateCutouts
  rw [List.filter_append, List.filter_append, hg, hk]
  rw [List.append_nil, List.append_nil]
  unfold handleCutsOf
  by_cases hl : h.left_handle = [] <;> simp [hl]

/-- Destructuring a successful orchestrator run into its components. -/
theorem computeDoorGeometry_ok (req : DoorDXFRequest) (r : Bool) (o : ℚ × ℚ)
    (out : SchemasOutput) (h : computeDoorGeometry req r o = Except.ok out) :
    ∃ params, prepareDimensions req = Except.ok params ∧
      out.geometry.frames = buildFrameObjs (pipelineCore params r).1 ∧
      out.geometry.cutouts
        = generateCutouts params (pipelineCore params r).1 (pipelineCore params r).2 ∧
      out.geometry.holes = generateHoles params (pipelineCore params r).1 ∧
      out.option = orchestratorOption params.door.option := by
  cases hp : prepareDimensions req with
  | error e =>
      rw [computeDoorGeometry, hp] at h
      exact absurd h (by simp)
  | ok params =>
      refine ⟨params, rfl, ?_⟩
      simp only [computeDoorGeometry, hp] at h
      injection h with h2
      subst h2
      exact ⟨rfl, rfl, rfl, rfl⟩

theorem omin_assoc (x y z : Option ℚ) : omin (omin x y) z = omin x (omin y z) := by
  cases x <;> cases y <;> cases z <;> simp [omin, min_assoc]

theorem createHandles_left_iff (p : Params) (fr : Frames) :
    (createHandles p fr).left_handle ≠ [] ↔ p.is_double = true := by
  unfold createHandles
  dsimp only
  cases hd : p.is_double <;> simp [hd]

theorem prepareDimensions_ok_fields (req : DoorDXFRequest) (params : Params)
    (h : prepareDimensions req = Except.ok params) :
    params.door = req.door ∧
    params.is_double = decide (pyLower (pyStrip req.door.category) = "double") := by
  unfold prepareDimensions at h
  dsimp only at h
  split at h
  · exact absurd h (by simp)
  · injection h with h2
    subst h2
    exact ⟨rfl, rfl⟩

theorem pipelineCore_left_handle_iff (p : Params) (r : Bool) :
    (pipelineCore p r).2.left_handle ≠ [] ↔ p.is_double = true := by
  obtain ⟨g, hg⟩ := pipelineCore_shape p r
  rw [hg]
  show ((createHandles p (createBaseFrames p)).left_handle.map g ≠ []) ↔ _
  rw [ne_eq, List.map_eq_nil_iff, ← ne_eq]
  exact createHandles_left_iff p (createBaseFrames p)

theorem handleCutsOf_mem_center (h : Handles) :
    { name := "center_handle", layer := "CUT",
      poly := Poly.pts h.right_handle : Cutout } ∈ handleCutsOf h := by
  unfold handleCutsOf
  exact List.mem_append_right _ (List.mem_singleton.2 rfl)

theorem mem_generateCutouts_left_iff (p : Params) (fr : Frames) (hs : Handles) :
    (∃ c ∈ generateCutouts p fr hs, c.name = "left_handle")
      ↔ hs.left_handle ≠ [] := by
  constructor
  · rintro ⟨c, hc, hname⟩
    have hpred : (fun c : Cutout => c.name == "center_handle" || c.name == "left_handle") c
        = true := by
      show (c.name == "center_handle" || c.name == "left_handle") = true
      rw [hname]
      rfl
    have hmemf : c ∈ (generateCutouts p fr hs).filter
        (fun c => c.name == "center_handle" || c.name == "left_handle") :=
      List.mem_filter.2 ⟨hc, hpred⟩
    rw [generateCutouts_filter_handles] at hmemf
    unfold handleCutsOf at hmemf
    rcases List.mem_append.1 hmemf with hmem1 | hmem2
    · by_cases hl : hs.left_handle = []
      · rw [if_neg (by simpa using hl)] at hmem1
        exact absurd hmem1 (List.not_mem_nil c)
      · exact hl
    · rw [List.mem_singleton] at hmem2
      rw [hmem2] at hname
      have hcl : "center_handle" = "left_handle" := hname
      exact absurd hcl (by decide)
  · intro hl
    refine ⟨{ name := "left_handle", layer := "CUT", poly := Poly.pts hs.left_handle },
      ?_, rfl⟩
    unfold generateCutouts
    apply List.mem_append_left
    apply List.mem_append_left
    unfold handleCutsOf
    apply List.mem_append_left
    rw [if_pos hl]
    exact List.mem_singleton.2 rfl

/-- C10: every successful scene has a `center_handle` cutout, and has a
`left_handle` cutout exactly when the door category normalizes to
"double". -/
theorem claim10_handle_cutouts (req : DoorDXFRequest) (r : Bool) (o : ℚ × ℚ)
    (hok : (computeDoorGeometry req r o).isOk = true) :
    sceneHasCutout (computeDoorGeometry req r o) "center_handle" = true ∧
    (sceneHasCutout (computeDoorGeometry req r o) "left_handle" = true
      ↔ pyLower (pyStrip req.door.category) = "double") := by
  obtain ⟨out, hout⟩ : ∃ out, computeDoorGeometry req r o = Except.ok out := by
    cases he : computeDoorGeometry req r o with
    | error e => rw [he] at hok; exact absurd hok (by simp [Except.isOk, Except.toBool])
    | ok out => exact ⟨out, rfl⟩
  obtain ⟨params, hp, hframes, hcuts, hholes, hopt⟩ :=
    computeDoorGeometry_ok req r o out hout
  obtain ⟨hdoor, hdouble⟩ := prepareDimensions_ok_fields req params hp
  rw [hout]
  constructor
  · show out.geometry.cutouts.any (fun c => c.name == "center_handle") = true
    rw [hcuts]
    rw [List.any_eq_true]
    refine ⟨{ name := "center_handle", layer := "CUT",
              poly := Poly.pts (pipelineCore params r).2.right_handle }, ?_, rfl⟩
    unfold generateCutouts
    exact List.mem_append_left _ (List.mem_append_left _
      (handleCutsOf_mem_center (pipelineCore params r).2))
  · show out.geometry.cutouts.any (fun c => c.name == "left_handle") = true ↔ _
    rw [hcuts, List.any_eq_true]
    have h1 : (∃ c ∈ generateCutouts params (pipelineCore params r).1
        (pipelineCore params r).2, c.name = "left_handle")
        ↔ (pipelineCore params r).2.left_handle ≠ [] :=
      mem_generateCutouts_left_iff params (pipelineCore params r).1 (pipelineCore params r).2
    have h2 := pipelineCore_left_handle_iff params r
    constructor
    · rintro ⟨c, hc, hbeq⟩
      have hname : c.name = "left_handle" := by
        have := of_decide_eq_true hbeq
        exact this
      have := h2.1 (h1.1 ⟨c, hc, hname⟩)
      rw [hdouble] at this
      exact of_decide_eq_true this
    · intro hcat
      have hd : params.is_double = true := by
        rw [hdouble]
        exact decide_eq_true hcat
      obtain ⟨c, hc, hname⟩ := h1.2 (h2.2 hd)
      exact ⟨c, hc, by rw [hname]; rfl⟩

/-- Witness for C10 at a concrete single door and a concrete double door:
the center handle is always present, and the left handle appears exactly
for the double category. -/
theorem claim10_handle_cutouts_witness :
    sceneHasCutout (computeDoorGeometry reqSingle false (0, 0)) "center_handle" = true ∧
    sceneHasCutout (computeDoorGeometry reqSingle false (0, 0)) "left_handle" = false ∧
    sceneHasCutout (computeDoorGeometry reqDoubleFire false (0, 0)) "left_handle" = true := by
  have h1 := claim10_handle_cutouts reqSingle false (0, 0) (by with_unfolding_all rfl)
  have h2 := claim10_handle_cutouts reqDoubleFire false (0, 0) (by with_unfolding_all rfl)
  refine ⟨h1.1, ?_, h2.2.2 (by with_unfolding_all rfl)⟩
  have hnot : ¬ (pyLower (pyStrip reqSingle.door.category) = "double") := by
    with_unfolding_all decide
  cases hv : sceneHasCutout (computeDoorGeometry reqSingle false (0, 0)) "left_handle" with
  | false => rfl
  | true => exact absurd (h1.2.1 hv) hnot

/-- C2: the pipeline fails with the InvalidDimension error exactly when a
measurement is non-positive, and returns a scene (no partial result — the
error carries no geometry by type) for every strictly positive pair of
measurements. -/
theorem claim2_invalid_dimension (req : DoorDXFRequest) (r : Bool) (o : ℚ × ℚ) :
    (computeDoorGeometry req r o
        = Except.error "Width and height must be positive numbers."
      ↔ (req.dimensions.width_measurement ≤ 0 ∨ req.dimensions.height_measurement ≤ 0)) ∧
    ((0 < req.dimensions.width_measurement ∧ 0 < req.dimensions.height_measurement) →
      (computeDoorGeometry req r o).isOk = true) := by
  by_cases hc : req.dimensions.width_measurement ≤ 0
      ∨ req.dimensions.height_measurement ≤ 0
  · have hpd : prepareDimensions req
        = Except.error "Width and height must be positive numbers." := by
      unfold prepareDimensions
      dsimp only
      rw [if_pos hc]
    have hcdg : computeDoorGeometry req r o
        = Except.error "Width and height must be positive numbers." := by
      simp only [computeDoorGeometry, hpd]
    refine ⟨⟨fun _ => hc, fun _ => hcdg⟩, ?_⟩
    rintro ⟨hw, hh⟩
    rcases hc with hc | hc
    · exact absurd hc (not_le.2 hw)
    · exact absurd hc (not_le.2 hh)
  · have hpd : ∃ p, prepareDimensions req = Except.ok p := by
      unfold prepareDimensions
      dsimp only
      rw [if_neg hc]
      exact ⟨_, rfl⟩
    obtain ⟨p, hp⟩ := hpd
    have hcdg : ∃ out, computeDoorGeometry req r o = Except.ok out := by
      simp only [computeDoorGeometry, hp]
      exact ⟨_, rfl⟩
    obtain ⟨out, ho⟩ := hcdg
    refine ⟨⟨fun he => ?_, fun h => absurd h hc⟩, fun _ => by rw [ho]; rfl⟩
    rw [he] at ho
    exact Except.noConfusion ho

/-- Witness for C2: width 0 fails with the error, width 0.0001 succeeds
(the spec's boundary example). -/
theorem claim2_invalid_dimension_witness :
    computeDoorGeometry (mkReq "Single" "normal" none "" 0 800) false (0, 0)
      = Except.error "Width and height must be positive numbers." ∧
    (computeDoorGeometry (mkReq "Single" "normal" none "" (1/10000) 800) false (0, 0)).isOk
      = true := by
  constructor
  · exact (claim2_invalid_dimension (mkReq "Single" "normal" none "" 0 800) false (0, 0)).1.2
      (by left; norm_num [mkReq])
  · exact (claim2_invalid_dimension
        (mkReq "Single" "normal" none "" (1/10000) 800) false (0, 0)).2
      (by constructor <;> norm_num [mkReq])

instance : Std.Commutative omin := ⟨omin_comm⟩

instance : Std.Associative omin := ⟨omin_assoc⟩

theorem minXOf_append (a b : List Point) :
    minXOf (a ++ b) = omin (minXOf a) (minXOf b) := by
  unfold minXOf
  rw [List.map_append, listMin_append]

theorem minYOf_append (a b : List Point) :
    minYOf (a ++ b) = omin (minYOf a) (minYOf b) := by
  unfold minYOf
  rw [List.map_append, listMin_append]

theorem handleCutPts_eq (out : SchemasOutput) (p : Params) (fr : Frames) (hs : Handles)
    (hcuts : out.geometry.cutouts = generateCutouts p fr hs) :
    handleCutPts out = hs.left_handle ++ hs.right_handle := by
  unfold handleCutPts
  rw [hcuts, generateCutouts_filter_handles]
  unfold handleCutsOf
  rw [List.flatMap_append]
  by_cases hl : hs.left_handle = []
  · simp [hl, Poly.keyPts]
  · simp [hl, Poly.keyPts]

/-- C1 (amended): after the shared transform, the second normalization
anchors the joint bounding box of the frame polygons and handle cutouts
at exactly (0, 0). -/
theorem claim1_normalization (req : DoorDXFRequest) (r : Bool) (o : ℚ × ℚ)
    (hok : (computeDoorGeometry req r o).isOk = true) :
    sceneNormMin (computeDoorGeometry req r o) = (some 0, some 0) := by
  obtain ⟨out, hout⟩ : ∃ out, computeDoorGeometry req r o = Except.ok out := by
    cases he : computeDoorGeometry req r o with
    | error e => rw [he] at hok; exact absurd hok (by simp [Except.isOk, Except.toBool])
    | ok out => exact ⟨out, rfl⟩
  obtain ⟨params, hp, hframes, hcuts, hholes, hopt⟩ :=
    computeDoorGeometry_ok req r o out hout
  rw [hout]
  show (minXOf (sceneFramePts out ++ handleCutPts out),
        minYOf (sceneFramePts out ++ handleCutPts out)) = (some 0, some 0)
  have hA : sceneFramePts out
      = (pipelineCore params r).1.outer ++ (pipelineCore params r).1.inner
        ++ (pipelineCore params r).1.left_outer.getD []
        ++ (pipelineCore params r).1.left_inner.getD [] := by
    unfold sceneFramePts
    rw [hframes, buildFrameObjs_pts]
  have hH : handleCutPts out
      = (pipelineCore params r).2.left_handle ++ (pipelineCore params r).2.right_handle :=
    handleCutPts_eq out params (pipelineCore params r).1 (pipelineCore params r).2 hcuts
  have hswap :
      ∀ f : List Point → Option ℚ,
        (∀ a b : List Point, f (a ++ b) = omin (f a) (f b)) →
        f (sceneFramePts out ++ handleCutPts out)
          = f (framesHandlesPts (pipelineCore params r).1 (pipelineCore params r).2) := by
    intro f hf
    rw [hA, hH]
    unfold framesHandlesPts
    simp only [hf]
    ac_rfl
  have hmin := pipelineCore_min params r
  rw [Prod.mk.injEq]
  constructor
  · rw [hswap minXOf minXOf_append]
    exact hmin.1
  · rw [hswap minYOf minYOf_append]
    exact hmin.2

/-- Witness for C1 (amended) at a concrete single door. -/
theorem claim1_normalization_witness :
    sceneNormMin (computeDoorGeometry reqSingle false (0, 0)) = (some 0, some 0) :=
  claim1_normalization reqSingle false (0, 0) (by with_unfolding_all rfl)

/-- C1 counterexample: for a double fire door the glass cutouts stay in
untransformed local coordinates, so the union of frame, cutout and hole
points has bounding-box minimum x = -442, not 0. -/
theorem claim1_counterexample :
    sceneMinX (computeDoorGeometry reqDoubleFire false (0, 0)) = some (-442) ∧
    ¬ ((-442 : ℚ) = 0) := by
  constructor
  · with_unfolding_all rfl
  · norm_num

/-- C3 (amended): `compute_door_geometry` is deterministic but not pure —
`prepare_dimensions` overwrites the two circle-offset fields of the
request's defaults record in place whenever `hole_offset` parses as two
`x`-separated numeric tokens and validation passes; for an absent or
malformed `hole_offset` the input is left unchanged. -/
theorem claim3_defaults_mutation (req : DoorDXFRequest) :
    (parseHoleOffset req.door.hole_offset = none → defaultsAfter req = req.defaults) ∧
    (∀ lv tv, parseHoleOffset req.door.hole_offset = some (lv, tv) →
      0 < req.dimensions.width_measurement → 0 < req.dimensions.height_measurement →
      defaultsAfter req
        = { req.defaults with left_circle_offset := lv, top_circle_offset := tv }) := by
  by_cases hv : req.dimensions.width_measurement ≤ 0
      ∨ req.dimensions.height_measurement ≤ 0
  · have herr : defaultsAfter req = req.defaults := by
      unfold defaultsAfter prepareDimensions
      dsimp only
      rw [if_pos hv]
    refine ⟨fun _ => herr, fun lv tv _ hw hh => ?_⟩
    rcases hv with hv | hv
    · exact absurd hv (not_le.2 hw)
    · exact absurd hv (not_le.2 hh)
  · have hda : defaultsAfter req
        = (match parseHoleOffset req.door.hole_offset with
           | some (left_val, top_val) =>
               { req.defaults with
                 left_circle_offset := left_val
                 top_circle_offset := top_val }
           | none => req.defaults) := by
      unfold defaultsAfter prepareDimensions
      dsimp only
      rw [if_neg hv]
    constructor
    · intro hparse
      rw [hda, hparse]
    · intro lv tv hparse _ _
      rw [hda, hparse]

/-- Witness for C3 (amended): a malformed hole offset leaves the defaults
untouched; "80x40" overwrites them with left = 40, top = 80. -/
theorem claim3_defaults_mutation_witness :
    defaultsAfter reqGarbage = reqGarbage.defaults ∧
    defaultsAfter reqSingle
      = { reqSingle.defaults with left_circle_offset := 40, top_circle_offset := 80 } := by
  constructor
  · exact (claim3_defaults_mutation reqGarbage).1 (by with_unfolding_all rfl)
  · exact (claim3_defaults_mutation reqSingle).2 40 80 (by with_unfolding_all rfl)
      (by norm_num [reqSingle, mkReq]) (by norm_num [reqSingle, mkReq])

/-- C3 counterexample: the invocation with `hole_offset = "80x40"` leaves
the request's defaults record changed — `top_circle_offset` is 80 after
the call but 150 before it. -/
theorem claim3_counterexample :
    (defaultsAfter reqSingle).top_circle_offset = 80 ∧
    reqSingle.defaults.top_circle_offset = 150 ∧
    defaultsAfter reqSingle ≠ reqSingle.defaults := by
  refine ⟨by with_unfolding_all rfl, by with_unfolding_all rfl, ?_⟩
  intro h
  have h80 : (defaultsAfter reqSingle).top_circle_offset = 80 := by
    with_unfolding_all rfl
  rw [h] at h80
  have h150 : reqSingle.defaults.top_circle_offset = 150 := by
    with_unfolding_all rfl
  rw [h150] at h80
  norm_num at h80

/-- C4: the frame builder produces the outer rectangle spanning (0,0) to
(outer_width, inner_height) with outer_width = leaf_width +
bending_width, outer_height = inner_height + bending_height, the inner
rectangle spanning inner_offset to inner_offset + (leaf_width,
outer_height) with inner_offset = (bending_width - bend_adjust,
bend_adjust - bending_height), and for double doors the left outer/inner
pair shifted left by shift_left = left-leaf outer width + gap (left-leaf
outer width = leaf_width + bending_width_double_door). -/
theorem claim4_frame_builder (p : Params) :
    (createBaseFrames p).outer
      = [(0, 0), (p.leaf_width + p.bending_width, 0),
         (p.leaf_width + p.bending_width, p.inner_height),
         (0, p.inner_height), (0, 0)] ∧
    (createBaseFrames p).inner
      = [((p.bending_width - p.bend_adjust), (p.bend_adjust - p.bending_height)),
         ((p.bending_width - p.bend_adjust) + p.leaf_width,
           (p.bend_adjust - p.bending_height)),
         ((p.bending_width - p.bend_adjust) + p.leaf_width,
           (p.bend_adjust - p.bending_height) + (p.inner_height + p.bending_height)),
         ((p.bending_width - p.bend_adjust),
           (p.bend_adjust - p.bending_height) + (p.inner_height + p.bending_height)),
         ((p.bending_width - p.bend_adjust), (p.bend_adjust - p.bending_height))] ∧
    (createBaseFrames p).inner_offset
      = (p.bending_width - p.bend_adjust, p.bend_adjust - p.bending_height) ∧
    (createBaseFrames p).outer_height = p.inner_height + p.bending_height ∧
    (p.is_double = true →
      (createBaseFrames p).shift_left
        = some ((p.leaf_width + p.bending_width_double_door) + p.gap) ∧
      (createBaseFrames p).left_outer
        = some ([((0 : ℚ), (0 : ℚ)),
                 (p.leaf_width + p.bending_width_double_door, 0),
                 (p.leaf_width + p.bending_width_double_door, p.inner_height),
                 (0, p.inner_height), (0, 0)].map
            (fun q => (q.1 - ((p.leaf_width + p.bending_width_double_door) + p.gap), q.2))) ∧
      (createBaseFrames p).left_inner
        = some ([(p.bend_adjust, p.bend_adjust - p.bending_height),
                 (p.bend_adjust + p.leaf_width, p.bend_adjust - p.bending_height),
                 (p.bend_adjust + p.leaf_width,
                   (p.bend_adjust - p.bending_height) + (p.inner_height + p.bending_height)),
                 (p.bend_adjust,
                   (p.bend_adjust - p.bending_height) + (p.inner_height + p.bending_height)),
                 (p.bend_adjust, p.bend_adjust - p.bending_height)].map
            (fun q => (q.1 - ((p.leaf_width + p.bending_width_double_door) + p.gap), q.2)))) := by
  unfold createBaseFrames
  dsimp only
  cases hd : p.is_double with
  | false => simp
  | true => simp

/-- Witness for C4's double-door clause at a concrete double door:
shift_left evaluates to 609 + 31 + 4 = 644. -/
theorem claim4_frame_builder_witness :
    (createBaseFrames paramsDoubleFire).shift_left = some 644 := by
  have h := (claim4_frame_builder paramsDoubleFire).2.2.2.2 (by rfl)
  rw [h.1]
  with_unfolding_all rfl

/-- C5 (amended): the cutout composer resolves tokens case-insensitively
by the stated synonym table with unrecognized tokens normalizing to
`None`; the orchestrator however reports the output option through its
own different mapping, under which "standard" becomes Option4 (not the
composer's Option1) and "topfixed"/"bottomfixed" become `None`. -/
theorem claim5_option_tables :
    optionNormalized (some "Standard") = some "Option1" ∧
    optionNormalized (some "TOPFIXED") = some "Option2" ∧
    optionNormalized (some "BottomFixed") = some "Option3" ∧
    optionNormalized (some "Standard_Double") = some "Option4" ∧
    optionNormalized (some "FourGlass") = some "Option5" ∧
    (∀ s, pyLower (pyStrip (pyStrip s)) ∉ recognizedCutoutTokens →
      optionNormalized (some s) = none) ∧
    orchestratorOption (some "standard") = some "Option4" ∧
    orchestratorOption (some "topfixed") = none := by
  refine ⟨by with_unfolding_all rfl, by with_unfolding_all rfl,
    by with_unfolding_all rfl, by with_unfolding_all rfl, by with_unfolding_all rfl,
    ?_, by with_unfolding_all rfl, by with_unfolding_all rfl⟩
  intro s hs
  unfold optionNormalized
  dsimp only
  simp only [Option.getD_some]
  by_cases h0 : pyStrip s = ""
  · rw [if_pos h0]
  · rw [if_neg h0]
    rw [if_neg (fun hmem => hs
        ((by decide : ∀ x ∈ ["option1", "option 1", "1", "standard"],
            x ∈ recognizedCutoutTokens) _ hmem))]
    rw [if_neg (fun hmem => hs
        ((by decide : ∀ x ∈ ["option2", "option 2", "2", "topfixed"],
            x ∈ recognizedCutoutTokens) _ hmem))]
    rw [if_neg (fun hmem => hs
        ((by decide : ∀ x ∈ ["option3", "option 3", "3", "bottomfixed"],
            x ∈ recognizedCutoutTokens) _ hmem))]
    rw [if_neg (fun hmem => hs
        ((by decide : ∀ x ∈ ["standard_double", "standard-double", "standarddouble"],
            x ∈ recognizedCutoutTokens) _ hmem))]
    rw [if_neg (fun hmem => hs
        ((by decide : ∀ x ∈ ["fourglass", "four_glass", "four-glass", "4glass", "4_glass"],
            x ∈ recognizedCutoutTokens) _ hmem))]

/-- Witness for C5 (amended): the unrecognized token "junk" normalizes to
`None` in the cutout composer. -/
theorem claim5_option_tables_witness :
    optionNormalized (some "junk") = none :=
  claim5_option_tables.2.2.2.2.2.1 "junk" (by with_unfolding_all decide)

/-- C5 counterexample: for the request with option "standard" the
returned output reports Option4 while the cutout composition was selected
by the composer token Option1. -/
theorem claim5_counterexample :
    sceneOption (computeDoorGeometry reqSingleFire false (0, 0)) = some "Option4" ∧
    optionNormalized reqSingleFire.door.option = some "Option1" ∧
    ¬ ((some "Option4" : Option String) = some "Option1") := by
  refine ⟨?_, by with_unfolding_all rfl, by decide⟩
  with_unfolding_all rfl

/-- C9 (amended): the handle rectangle's left edge is at inner_offset_x +
box_gap, but it is vertically centered on inner_height + bending_height
(its bottom sits at inner_offset_y + (inner_height + bending_height -
box_height) / 2), not on inner_height alone; the double-door left handle
is the mirror with its right edge box_gap + box_width inward from
inner_offset_x - shift_left + leaf_width, at the same vertical center. -/
theorem claim9_handles (p : Params) (fr : Frames) :
    (createHandles p fr).right_handle
      = [(fr.inner_offset.1 + p.defaults.box_gap,
          fr.inner_offset.2 + ((p.inner_height + p.bending_height
            - p.defaults.box_height) / 2)),
         (fr.inner_offset.1 + p.defaults.box_gap + p.defaults.box_width,
          fr.inner_offset.2 + ((p.inner_height + p.bending_height
            - p.defaults.box_height) / 2)),
         (fr.inner_offset.1 + p.defaults.box_gap + p.defaults.box_width,
          fr.inner_offset.2 + ((p.inner_height + p.bending_height
            - p.defaults.box_height) / 2) + p.defaults.box_height),
         (fr.inner_offset.1 + p.defaults.box_gap,
          fr.inner_offset.2 + ((p.inner_height + p.bending_height
            - p.defaults.box_height) / 2) + p.defaults.box_height),
         (fr.inner_offset.1 + p.defaults.box_gap,
          fr.inner_offset.2 + ((p.inner_height + p.bending_height
            - p.defaults.box_height) / 2))] ∧
    (p.is_double = true →
      (createHandles p fr).left_handle
        = [(fr.inner_offset.1 - fr.shift_left.getD 0 + p.leaf_width
              - p.defaults.box_gap - p.defaults.box_width,
            fr.inner_offset.2 + ((p.inner_height + p.bending_height
              - p.defaults.box_height) / 2)),
           (fr.inner_offset.1 - fr.shift_left.getD 0 + p.leaf_width
              - p.defaults.box_gap - p.defaults.box_width + p.defaults.box_width,
            fr.inner_offset.2 + ((p.inner_height + p.bending_height
              - p.defaults.box_height) / 2)),
           (fr.inner_offset.1 - fr.shift_left.getD 0 + p.leaf_width
              - p.defaults.box_gap - p.defaults.box_width + p.defaults.box_width,
            fr.inner_offset.2 + ((p.inner_height + p.bending_height
              - p.defaults.box_height) / 2) + p.defaults.box_height),
           (fr.inner_offset.1 - fr.shift_left.getD 0 + p.leaf_width
              - p.defaults.box_gap - p.defaults.box_width,
            fr.inner_offset.2 + ((p.inner_height + p.bending_height
              - p.defaults.box_height) / 2) + p.defaults.box_height),
           (fr.inner_offset.1 - fr.shift_left.getD 0 + p.leaf_width
              - p.defaults.box_gap - p.defaults.box_width,
            fr.inner_offset.2 + ((p.inner_height + p.bending_height
              - p.defaults.box_height) / 2))]) := by
  unfold createHandles
  dsimp only
  cases hd : p.is_double with
  | false => simp
  | true => simp

/-- Witness for C9 (amended) at a concrete double door: the left handle's
left edge evaluates to 19 - 644 + 609 - 30 - 22 = -68. -/
theorem claim9_handles_witness :
    (createHandles paramsDoubleFire (createBaseFrames paramsDoubleFire)).left_handle.head?
      = some (-68, 1483 / 2) := by
  have h := (claim9_handles paramsDoubleFire (createBaseFrames paramsDoubleFire)).2 rfl
  rw [h]
  with_unfolding_all rfl

/-- C9 counterexample: for a single 600 x 800 door the handle's vertical
center is 390 = inner_offset_y + (inner_height + bending_height) / 2, not
inner_offset_y + inner_height / 2 = 378. -/
theorem claim9_counterexample :
    (createHandles paramsSingle (createBaseFrames paramsSingle)).right_handle
      = [(49, 334), (71, 334), (71, 446), (49, 446), (49, 334)] ∧
    ((334 : ℚ) + 446) / 2 = 390 ∧
    (createBaseFrames paramsSingle).inner_offset.2 + paramsSingle.inner_height / 2 = 378 ∧
    ¬ ((390 : ℚ) = 378) := by
  refine ⟨by with_unfolding_all rfl, by norm_num, ?_, by norm_num⟩
  with_unfolding_all rfl
set_option maxHeartbeats 1000000

/-- C6 (amended): glass bottoms are bend-shifted in the single-panel path
(shown for Option1: the `glass_cut` bottom is inner_offset_y +
fire_glass_bottom_margin + bend_adjust), but the two stacked panels of
the single-door Option5 (fourglass) layout are NOT shifted: their bottoms
sit at inner_offset_y + fire_glass_bottom_margin and inner_offset_y +
inner_height / 2 + 50 exactly, with no bend_adjust term.  The positivity
hypotheses state that the computed rectangles are non-degenerate, so the
margin-derived panels (not the fallback boxes) are emitted. -/
theorem claim6_bend_shift (p : Params) (fr : Frames) (h : Handles)
    (hcat : eqStr p.door.category "single" = true)
    (hty : eqStr p.door.type "fire" = true)
    (hnd : p.is_double = false) :
    (optionNormalized p.door.option = some "Option5" →
      0 < (fr.inner_offset.1 + p.inner_width - p.defaults.fire_glass_lr_margin)
          - (fr.inner_offset.1 + p.defaults.fire_glass_lr_margin) →
      0 < (fr.inner_offset.2 + (p.inner_height / 2 - 50))
          - (fr.inner_offset.2 + p.defaults.fire_glass_bottom_margin) →
      0 < (fr.inner_offset.2 + p.inner_height - p.defaults.fire_glass_top_margin)
          - (fr.inner_offset.2 + (p.inner_height / 2 + 50)) →
      (glassPlan p fr h).2.2 = false ∧
      ((glassPlan p fr h).2.1.map Poly.rectBottom?)
        = [some (fr.inner_offset.2 + p.defaults.fire_glass_bottom_margin),
           some (fr.inner_offset.2 + (p.inner_height / 2 + 50))]) ∧
    (optionNormalized p.door.option = some "Option1" →
      p.defaults.fire_glass_lr_margin < p.inner_width - p.defaults.fire_glass_lr_margin →
      p.defaults.fire_glass_bottom_margin
          < p.inner_height - p.defaults.fire_glass_top_margin →
      (glassPlan p fr h).2.2 = true ∧
      (glassPlan p fr h).1.rectBottom?
        = some (fr.inner_offset.2 + p.defaults.fire_glass_bottom_margin
            + p.bend_adjust)) := by
  have hSF : isSingleFireB p.door = true := by
    unfold isSingleFireB
    rw [hcat, hty]
    rfl
  have hd14 : doubleO14B p = false := by
    unfold doubleO14B
    rw [hnd]
    rfl
  have hc2B : cond2B p = false := by
    unfold cond2B
    rw [hnd]
    rfl
  constructor
  · intro hopt h1 h2 h3
    have hs5 : singleO5B p.door = true := by
      unfold singleO5B
      rw [hSF, hopt]
      rfl
    have hc1B : cond1B p = false := by
      unfold cond1B
      rw [hopt, hd14]
      simp
    unfold glassPlan
    simp only [hSF, hs5, hd14, hc1B, hc2B, hcat, hty, hnd, hopt, Bool.and_self,
      Bool.true_and, Bool.and_true, Bool.false_and, Bool.and_false, beq_self_eq_true,
      Bool.not_true, Bool.not_false, if_true, if_false, Bool.false_eq_true,
      reduceCtorEq, Option.some.injEq, String.reduceEq]
    have hc1 : (fr.inner_offset.1 + p.inner_width - p.defaults.fire_glass_lr_margin
          - (fr.inner_offset.1 + p.defaults.fire_glass_lr_margin) ≤ 0
        ∨ fr.inner_offset.2 + (p.inner_height / 2 - 50)
          - (fr.inner_offset.2 + p.defaults.fire_glass_bottom_margin) ≤ 0) = False := by
      simp only [eq_iff_iff, iff_false]
      push_neg
      exact ⟨h1, h2⟩
    have hc2 : (fr.inner_offset.1 + p.inner_width - p.defaults.fire_glass_lr_margin
          - (fr.inner_offset.1 + p.defaults.fire_glass_lr_margin) ≤ 0
        ∨ fr.inner_offset.2 + p.inner_height - p.defaults.fire_glass_top_margin
          - (fr.inner_offset.2 + (p.inner_height / 2 + 50)) ≤ 0) = False := by
      simp only [eq_iff_iff, iff_false]
      push_neg
      exact ⟨h1, h3⟩
    simp only [hc1, hc2, if_false, Option.getD_some]
    exact ⟨trivial, rfl⟩
  · intro hopt hB1 hB2
    have hs5 : singleO5B p.door = false := by
      unfold singleO5B
      rw [hSF, hopt]
      rfl
    have hc1B : cond1B p = true := by
      unfold cond1B
      rw [hty, hopt, hd14]
      rfl
    unfold glassPlan
    simp only [hSF, hs5, hd14, hc1B, hc2B, hcat, hty, hnd, hopt, Bool.and_self,
      Bool.true_and, Bool.and_true, Bool.false_and, Bool.and_false, beq_self_eq_true,
      Bool.not_true, Bool.not_false, if_true, if_false, Bool.false_eq_true,
      reduceCtorEq, Option.some.injEq,
      String.reduceEq, Bool.not_eq_true, Option.map_some', Option.getD_some]
    have hcB : (p.inner_width - p.defaults.fire_glass_lr_margin
          ≤ p.defaults.fire_glass_lr_margin
        ∨ p.inner_height - p.defaults.fire_glass_top_margin
          ≤ p.defaults.fire_glass_bottom_margin) = False := by
      simp only [eq_iff_iff, iff_false]
      push_neg
      exact ⟨hB1, hB2⟩
    simp only [hcB, if_false]
    exact ⟨trivial, rfl⟩

/-- Witness for C6 (amended) at concrete 895 x 1765 single fire doors:
the fourglass panel bottoms are 228 = -12 + 240 (no bend term) while the
Option1 single-panel bottom is 240 = -12 + 240 + 12. -/
theorem claim6_bend_shift_witness :
    ((glassPlan paramsFourglass (createBaseFrames paramsFourglass)
        (createHandles paramsFourglass (createBaseFrames paramsFourglass))).2.1.map
      Poly.rectBottom?) = [some 228, some (1821 / 2)] ∧
    (glassPlan paramsSingleFire (createBaseFrames paramsSingleFire)
        (createHandles paramsSingleFire (createBaseFrames paramsSingleFire))).1.rectBottom?
      = some 240 := by
  constructor
  · have h := (claim6_bend_shift paramsFourglass (createBaseFrames paramsFourglass)
        (createHandles paramsFourglass (createBaseFrames paramsFourglass))
        (by with_unfolding_all rfl) (by with_unfolding_all rfl) rfl).1
        (by with_unfolding_all rfl) (by with_unfolding_all decide)
        (by with_unfolding_all decide) (by with_unfolding_all decide)
    rw [h.2]
    with_unfolding_all rfl
  · have h := (claim6_bend_shift paramsSingleFire (createBaseFrames paramsSingleFire)
        (createHandles paramsSingleFire (createBaseFrames paramsSingleFire))
        (by with_unfolding_all rfl) (by with_unfolding_all rfl) rfl).2
        (by with_unfolding_all rfl) (by with_unfolding_all decide)
        (by with_unfolding_all decide)
    rw [h.2]
    with_unfolding_all rfl

/-- C6 counterexample: in the scene of the single fire fourglass door the
`glass_bottom` cutout's bottom edge is 228 = inner_offset_y +
fire_glass_bottom_margin, not inner_offset_y + fire_glass_bottom_margin +
bend_adjust = 240 as the claim requires. -/
theorem claim6_counterexample :
    sceneRectBottom (computeDoorGeometry reqFourglass false (0, 0)) "glass_bottom"
      = some 228 ∧
    ((-12 : ℚ) + 240 + 12 = 240) ∧
    ¬ ((228 : ℚ) = 240) := by
  refine ⟨?_, by norm_num, by norm_num⟩
  with_unfolding_all rfl
set_option maxHeartbeats 2000000

theorem glassPlan_nonempty (p : Params) (fr : Frames) (h : Handles)
    (hfalse : (glassPlan p fr h).2.2 = false) : (glassPlan p fr h).2.1 ≠ [] := by
  by_cases hs5 : singleO5B p.door = true
  · by_cases hdd : p.is_double = true
    · simp only [glassPlan, hs5, hdd, Bool.not_true, Bool.not_false, if_true,
        Bool.false_eq_true, if_false]
      simp
    · simp only [Bool.not_eq_true] at hdd
      simp only [glassPlan, hs5, hdd, Bool.not_true, Bool.not_false, if_true,
        Bool.false_eq_true, if_false]
      simp
  · simp only [Bool.not_eq_true] at hs5
    simp only [glassPlan, hs5, Bool.not_false, Bool.true_and, Bool.false_eq_true,
      if_false, List.nil_append] at hfalse ⊢
    by_cases hc1 : cond1B p = true
    · simp only [hc1, if_true] at hfalse
      simp at hfalse
    · simp only [Bool.not_eq_true] at hc1
      simp only [hc1, Bool.false_eq_true, if_false] at hfalse ⊢
      by_cases hc2 : cond2B p = true
      · simp only [hc2, if_true]
        simp
      · simp only [Bool.not_eq_true] at hc2
        simp only [hc2, Bool.false_eq_true, if_false] at hfalse ⊢
        by_cases hd14 : doubleO14B p = true
        · simp only [hd14, if_true]
          simp
        · simp only [Bool.not_eq_true] at hd14
          simp only [hd14, Bool.false_eq_true, if_false] at hfalse
          simp at hfalse

theorem glassCutsOf_ne_nil (p : Params) (fr : Frames) (h : Handles) :
    glassCutsOf p fr h ≠ [] := by
  unfold glassCutsOf
  dsimp only
  by_cases hstd : (glassPlan p fr h).2.2 = true
  · simp [hstd]
  · simp only [Bool.not_eq_true] at hstd
    have hne := glassPlan_nonempty p fr h hstd
    simp only [hstd, Bool.false_eq_true, if_false]
    simp only [ne_eq, List.map_eq_nil_iff, List.enum_eq_nil]
    exact hne
set_option maxHeartbeats 2000000

/-- C7: cutout generation is total — a glass cutout list is always
produced (first conjunct, with no hypothesis at all), and a degenerate
computed glass rectangle is replaced by the default-size centered box:
shown for the single-door Option2 path (where the half-height bottom
margin can exceed the top) and for the right leaf of the double-door
Option1 per-leaf path.  The box is `box_width` by `box_height`, centered
in the door's (resp. leaf's) inner area (the single-panel path
additionally applies the uniform bend shift to the fallback box, like to
every glass bottom). -/
theorem claim7_degenerate_fallback (p : Params) (fr : Frames) (h : Handles) :
    glassCutsOf p fr h ≠ [] ∧
    (eqStr p.door.category "single" = true → eqStr p.door.type "fire" = true →
      p.is_double = false → optionNormalized p.door.option = some "Option2" →
      p.inner_height - p.defaults.fire_glass_top_margin ≤ p.inner_height / 2 →
      (glassPlan p fr h).2.2 = true ∧
      (glassPlan p fr h).1
        = Poly.roundedRect
            (fr.inner_offset.1 + (p.inner_width - p.defaults.box_width) / 2)
            (fr.inner_offset.2 + (p.inner_height - p.defaults.box_height) / 2
              + p.bend_adjust)
            p.defaults.box_width p.defaults.box_height
            (min (min p.defaults.glass_corner_radius
              (if p.defaults.box_width ≠ 0 then p.defaults.box_width / 2 else 0))
              (if p.defaults.box_height ≠ 0 then p.defaults.box_height / 2 else 0))
            p.defaults.glass_segments) ∧
    (eqStr p.door.category "single" = false → eqStr p.door.type "fire" = true →
      p.is_double = true → optionNormalized p.door.option = some "Option1" →
      fr.inner_offset.1 + p.leaf_width - p.defaults.fire_glass_lr_margin
        - (fr.inner_offset.1 + p.defaults.fire_glass_lr_margin) ≤ 0 →
      (glassPlan p fr h).2.1.head?
        = some (Poly.roundedBox
            (fr.inner_offset.1 + (p.leaf_width - p.defaults.box_width) / 2)
            (fr.inner_offset.2 + (p.inner_height - p.defaults.box_height) / 2)
            p.defaults.box_width p.defaults.box_height
            (min (p.defaults.box_height / 2) (p.defaults.box_width / 2)))) := by
  refine ⟨glassCutsOf_ne_nil p fr h, ?_, ?_⟩
  · intro hcat hty hnd hopt hdeg
    have hSF : isSingleFireB p.door = true := by
      unfold isSingleFireB
      rw [hcat, hty]
      rfl
    have hs5 : singleO5B p.door = false := by
      unfold singleO5B
      rw [hSF, hopt]
      rfl
    have hd14 : doubleO14B p = false := by
      unfold doubleO14B
      rw [hnd]
      rfl
    have hc1B : cond1B p = true := by
      unfold cond1B
      rw [hty, hopt, hd14]
      rfl
    have hc2B : cond2B p = false := by
      unfold cond2B
      rw [hnd]
      rfl
    unfold glassPlan
    simp only [hSF, hs5, hd14, hc1B, hc2B, hcat, hty, hnd, hopt, Bool.and_self,
      Bool.true_and, Bool.and_true, Bool.false_and, Bool.and_false, beq_self_eq_true,
      Bool.not_true, Bool.not_false, if_true, if_false, Bool.false_eq_true,
      reduceCtorEq, Option.some.injEq, String.reduceEq, Bool.not_eq_true,
      Option.map_some', Option.getD_some]
    have hcB : (p.inner_width - p.defaults.fire_glass_lr_margin
          ≤ p.defaults.fire_glass_lr_margin
        ∨ p.inner_height - p.defaults.fire_glass_top_margin ≤ p.inner_height / 2)
        = True := by
      simp only [eq_iff_iff, iff_true]
      right
      exact hdeg
    simp only [hcB, if_true]
    exact ⟨by trivial, by trivial⟩
  · intro hcat hty hdd hopt hdeg
    have hSF : isSingleFireB p.door = false := by
      unfold isSingleFireB
      rw [hcat]
      rfl
    have hs5 : singleO5B p.door = false := by
      unfold singleO5B
      rw [hSF]
      rfl
    have hd14 : doubleO14B p = true := by
      unfold doubleO14B
      rw [hdd, hty, hopt]
      rfl
    have hc1B : cond1B p = false := by
      unfold cond1B
      rw [hd14]
      simp
    have hc2B : cond2B p = false := by
      unfold cond2B
      rw [hopt]
      simp
    unfold glassPlan
    simp only [hSF, hs5, hd14, hc1B, hc2B, hcat, hty, hdd, hopt, Bool.and_self,
      Bool.true_and, Bool.and_true, Bool.false_and, Bool.and_false, beq_self_eq_true,
      Bool.not_true, Bool.not_false, if_true, if_false, Bool.false_eq_true,
      reduceCtorEq, Option.some.injEq, String.reduceEq, Bool.not_eq_true,
      Option.map_some', Option.getD_some, List.nil_append]
    have hcR : (fr.inner_offset.1 + p.leaf_width - p.defaults.fire_glass_lr_margin
          - (fr.inner_offset.1 + p.defaults.fire_glass_lr_margin) ≤ 0
        ∨ outerFrameTopFor fr fr.inner_offset.1 fr.inner_offset.2 p.inner_height
            fr.inner_offset.1 - p.defaults.fire_glass_top_margin
          - (fr.inner_offset.2 + p.defaults.fire_glass_bottom_margin + p.bend_adjust) ≤ 0)
        = True := by
      simp only [eq_iff_iff, iff_true]
      left
      exact hdeg
    simp only [hcR, if_true, Option.getD_none]
    rfl

/-- Witness for C7 at a 600 x 300 single fire Option2 door, whose glass
rectangle is degenerate (280 - 170 = 110 at or below 140): the fallback
is the centered 22 x 112 box at (299, 84), and the cutout list is
non-empty. -/
theorem claim7_degenerate_fallback_witness :
    glassCutsOf paramsDegenerate (createBaseFrames paramsDegenerate)
      (createHandles paramsDegenerate (createBaseFrames paramsDegenerate)) ≠ [] ∧
    (glassPlan paramsDegenerate (createBaseFrames paramsDegenerate)
        (createHandles paramsDegenerate (createBaseFrames paramsDegenerate))).1
      = Poly.roundedRect 299 84 22 112 11 8 := by
  have hmain := claim7_degenerate_fallback paramsDegenerate
    (createBaseFrames paramsDegenerate)
    (createHandles paramsDegenerate (createBaseFrames paramsDegenerate))
  refine ⟨hmain.1, ?_⟩
  have h2 := hmain.2.1 (by with_unfolding_all rfl) (by with_unfolding_all rfl) rfl
    (by with_unfolding_all rfl) (by with_unfolding_all decide)
  rw [h2.2]
  with_unfolding_all rfl
theorem dedupeCore_chain (ps : List Point) :
    ∀ prev, List.Chain' farApart (prev :: dedupeCore prev ps) := by
  induction ps with
  | nil =>
      intro prev
      simp only [dedupeCore]
      exact List.chain'_singleton prev
  | cons q qs ih =>
      intro prev
      simp only [dedupeCore]
      by_cases hq : |q.1 - prev.1| > eps ∨ |q.2 - prev.2| > eps
      · rw [if_pos hq]
        exact List.chain'_cons.2 ⟨hq, ih q⟩
      · rw [if_neg hq]
        exact ih prev

theorem dedupe_closed (l : List Point) (h : l ≠ []) :
    (dedupeConsecutivePoints l).head? = (dedupeConsecutivePoints l).getLast? := by
  cases l with
  | nil => exact absurd rfl h
  | cons p ps =>
      simp only [dedupeConsecutivePoints]
      by_cases hg : (p :: dedupeCore p ps).getLast? ≠ some p
      · rw [if_pos hg, List.getLast?_concat]
        rfl
      · rw [if_neg hg]
        rw [not_not] at hg
        rw [hg]
        rfl

theorem chain_dropLast {α : Type _} {R : α → α → Prop} (l : List α)
    (h : List.Chain' R l) : List.Chain' R l.dropLast := by
  induction l with
  | nil => exact List.chain'_nil
  | cons a t ih =>
      cases t with
      | nil => exact List.chain'_nil
      | cons b t2 =>
          cases t2 with
          | nil => exact List.chain'_singleton a
          | cons c t3 =>
              rw [List.chain'_cons] at h
              show List.Chain' R (a :: b :: (c :: t3).dropLast)
              rw [List.chain'_cons]
              exact ⟨h.1, ih h.2⟩

theorem dedupe_chain (l : List Point) :
    List.Chain' farApart (dedupeConsecutivePoints l).dropLast := by
  cases l with
  | nil => exact List.chain'_nil
  | cons p ps =>
      simp only [dedupeConsecutivePoints]
      by_cases hg : (p :: dedupeCore p ps).getLast? ≠ some p
      · rw [if_pos hg, List.dropLast_concat]
        exact dedupeCore_chain ps p
      · rw [if_neg hg]
        exact chain_dropLast _ (dedupeCore_chain ps p)

theorem closed4_explicit (p1 p2 p3 p4 : Point) : closed4 [p1, p2, p3, p4, p1] := by
  refine ⟨rfl, ?_⟩
  simp

theorem closed4_map (f : Point → Point) (l : List Point) (h : closed4 l) :
    closed4 (l.map f) := by
  refine ⟨?_, ?_⟩
  · rw [List.head?_map, List.getLast?_map, h.1]
  · rw [List.length_map]
    exact h.2

theorem closed4_check (l : List Point) (h : closed4 l) :
    ((l.head? == l.getLast?) && decide (4 ≤ l.length)) = true := by
  rw [Bool.and_eq_true, beq_iff_eq, decide_eq_true_eq]
  exact ⟨h.1, h.2⟩

theorem createBaseFrames_closed (p : Params) :
    closed4 (createBaseFrames p).outer ∧ closed4 (createBaseFrames p).inner ∧
    (∀ l, (createBaseFrames p).left_outer = some l → closed4 l) ∧
    (∀ l, (createBaseFrames p).left_inner = some l → closed4 l) := by
  unfold createBaseFrames
  dsimp only
  by_cases hd : p.is_double = true
  · rw [if_pos hd]
    dsimp only
    refine ⟨closed4_explicit _ _ _ _, closed4_explicit _ _ _ _, ?_, ?_⟩
    · intro l hl
      injection hl with h2
      rw [← h2]
      exact closed4_map _ _ (closed4_explicit _ _ _ _)
    · intro l hl
      injection hl with h2
      rw [← h2]
      exact closed4_map _ _ (closed4_explicit _ _ _ _)
  · rw [if_neg hd]
    dsimp only
    refine ⟨closed4_explicit _ _ _ _, closed4_explicit _ _ _ _, ?_, ?_⟩
    · intro l hl
      exact Option.noConfusion hl
    · intro l hl
      exact Option.noConfusion hl

theorem createHandles_closed (p : Params) (fr : Frames) :
    closed4 (createHandles p fr).right_handle ∧
    ((createHandles p fr).left_handle ≠ [] → closed4 (createHandles p fr).left_handle) := by
  unfold createHandles
  dsimp only
  refine ⟨closed4_explicit _ _ _ _, ?_⟩
  by_cases hd : p.is_double = true
  · rw [if_pos hd]
    intro _
    exact closed4_explicit _ _ _ _
  · rw [if_neg hd]
    intro hne
    exact absurd rfl hne

theorem pipelineCore_closed (p : Params) (r : Bool) :
    closed4 (pipelineCore p r).1.outer ∧ closed4 (pipelineCore p r).1.inner ∧
    (∀ l, (pipelineCore p r).1.left_outer = some l → closed4 l) ∧
    (∀ l, (pipelineCore p r).1.left_inner = some l → closed4 l) ∧
    closed4 (pipelineCore p r).2.right_handle ∧
    ((pipelineCore p r).2.left_handle ≠ [] → closed4 (pipelineCore p r).2.left_handle) := by
  obtain ⟨g, hg⟩ := pipelineCore_shape p r
  rw [hg]
  obtain ⟨ho, hi, hlo, hli⟩ := createBaseFrames_closed p
  obtain ⟨hrh, hlh⟩ := createHandles_closed p (createBaseFrames p)
  unfold mapFH
  dsimp only
  refine ⟨closed4_map _ _ ho, closed4_map _ _ hi, ?_, ?_, closed4_map _ _ hrh, ?_⟩
  · intro l hl
    cases hlo2 : (createBaseFrames p).left_outer with
    | none => rw [hlo2, Option.map_none'] at hl; exact Option.noConfusion hl
    | some l0 =>
        rw [hlo2, Option.map_some'] at hl
        injection hl with h2
        rw [← h2]
        exact closed4_map _ _ (hlo l0 hlo2)
  · intro l hl
    cases hli2 : (createBaseFrames p).left_inner with
    | none => rw [hli2, Option.map_none'] at hl; exact Option.noConfusion hl
    | some l0 =>
        rw [hli2, Option.map_some'] at hl
        injection hl with h2
        rw [← h2]
        exact closed4_map _ _ (hli l0 hli2)
  · intro hne
    rw [ne_eq, List.map_eq_nil_iff] at hne
    exact closed4_map _ _ (hlh hne)

theorem buildFrameObjs_closed (fr : Frames)
    (ho : closed4 fr.outer) (hi : closed4 fr.inner)
    (hlo : ∀ l, fr.left_outer = some l → closed4 l)
    (hli : ∀ l, fr.left_inner = some l → closed4 l) :
    ∀ f ∈ buildFrameObjs fr, closed4 f.points := by
  intro f hf
  unfold buildFrameObjs at hf
  dsimp only at hf
  rcases List.mem_append.1 hf with hf3 | hf4
  rcases List.mem_append.1 hf3 with hf2 | hf3b
  rcases List.mem_append.1 hf2 with hf1 | hf2b
  · by_cases hne : fr.outer ≠ []
    · rw [if_pos hne] at hf1
      rw [List.mem_singleton] at hf1
      subst hf1
      exact ho
    · rw [if_neg hne] at hf1
      exact absurd hf1 (List.not_mem_nil f)
  · by_cases hne : fr.inner ≠ []
    · rw [if_pos hne] at hf2b
      rw [List.mem_singleton] at hf2b
      subst hf2b
      exact hi
    · rw [if_neg hne] at hf2b
      exact absurd hf2b (List.not_mem_nil f)
  · cases hlo2 : fr.left_outer with
    | none =>
        rw [hlo2] at hf3b
        dsimp only at hf3b
        exact absurd hf3b (List.not_mem_nil f)
    | some l0 =>
        rw [hlo2] at hf3b
        dsimp only at hf3b
        by_cases hne : l0 ≠ []
        · rw [if_pos hne] at hf3b
          rw [List.mem_singleton] at hf3b
          subst hf3b
          exact hlo l0 hlo2
        · rw [if_neg hne] at hf3b
          exact absurd hf3b (List.not_mem_nil f)
  · cases hli2 : fr.left_inner with
    | none =>
        rw [hli2] at hf4
        dsimp only at hf4
        exact absurd hf4 (List.not_mem_nil f)
    | some l0 =>
        rw [hli2] at hf4
        dsimp only at hf4
        by_cases hne : l0 ≠ []
        · rw [if_pos hne] at hf4
          rw [List.mem_singleton] at hf4
          subst hf4
          exact hli l0 hli2
        · rw [if_neg hne] at hf4
          exact absurd hf4 (List.not_mem_nil f)

theorem getD_panel_ne_pts (c : Prop) [Decidable c] (a b w ht r : ℚ) (s : ℕ)
    (e f g i j : ℚ) (l : List Point) :
    (if c then none else some (Poly.roundedRect a b w ht r s)).getD
        (Poly.roundedBox e f g i j) ≠ Poly.pts l := by
  by_cases hc : c
  · rw [if_pos hc, Option.getD_none]
    exact fun h2 => Poly.noConfusion h2
  · rw [if_neg hc, Option.getD_some]
    exact fun h2 => Poly.noConfusion h2

theorem glassPlan_fst_pts (p : Params) (fr : Frames) (hd : Handles) (l : List Point)
    (hl : (glassPlan p fr hd).1 = Poly.pts l) : l = hd.right_handle := by
  unfold glassPlan at hl
  dsimp only at hl
  by_cases h1 : cond1B p = true
  · rw [if_pos h1] at hl
    dsimp only at hl
    rw [Option.getD_some] at hl
    exact Poly.noConfusion hl
  · rw [if_neg h1] at hl
    by_cases h2 : cond2B p = true
    · rw [if_pos h2] at hl
      dsimp only at hl
      rw [Option.getD_none] at hl
      injection hl with h3
      exact h3.symm
    · rw [if_neg h2] at hl
      by_cases h3 : doubleO14B p = true
      · rw [if_pos h3] at hl
        dsimp only at hl
        rw [Option.getD_none] at hl
        injection hl with h4
        exact h4.symm
      · rw [if_neg h3] at hl
        dsimp only at hl
        rw [Option.getD_some] at hl
        injection hl with h4
        exact h4.symm

theorem glassPlan_no_pts (p : Params) (fr : Frames) (hd : Handles) :
    ∀ po ∈ (glassPlan p fr hd).2.1, ∀ l, po ≠ Poly.pts l := by
  intro po hpo l
  unfold glassPlan at hpo
  dsimp only at hpo
  rcases List.mem_append.1 hpo with hA | hC
  · by_cases hs : singleO5B p.door = true
    · rw [if_pos hs] at hA
      by_cases hdbl : (!p.is_double) = true
      · rw [if_pos hdbl] at hA
        simp only [List.mem_cons, List.not_mem_nil, or_false] at hA
        rcases hA with rfl | rfl
        · exact getD_panel_ne_pts _ _ _ _ _ _ _ _ _ _ _ _ _
        · exact getD_panel_ne_pts _ _ _ _ _ _ _ _ _ _ _ _ _
      · rw [if_neg hdbl] at hA
        simp only [List.mem_append, List.mem_cons, List.not_mem_nil, or_false] at hA
        rcases hA with (rfl | rfl) | (rfl | rfl)
        · exact getD_panel_ne_pts _ _ _ _ _ _ _ _ _ _ _ _ _
        · exact getD_panel_ne_pts _ _ _ _ _ _ _ _ _ _ _ _ _
        · exact getD_panel_ne_pts _ _ _ _ _ _ _ _ _ _ _ _ _
        · exact getD_panel_ne_pts _ _ _ _ _ _ _ _ _ _ _ _ _
    · rw [if_neg hs] at hA
      exact absurd hA (List.not_mem_nil po)
  · by_cases h1 : cond1B p = true
    · rw [if_pos h1] at hC
      dsimp only at hC
      exact absurd hC (List.not_mem_nil po)
    · rw [if_neg h1] at hC
      by_cases h2 : cond2B p = true
      · rw [if_pos h2] at hC
        dsimp only at hC
        simp only [List.mem_append, List.mem_cons, List.not_mem_nil, or_false] at hC
        rcases hC with (rfl | rfl) | (rfl | rfl)
        · exact getD_panel_ne_pts _ _ _ _ _ _ _ _ _ _ _ _ _
        · exact getD_panel_ne_pts _ _ _ _ _ _ _ _ _ _ _ _ _
        · exact getD_panel_ne_pts _ _ _ _ _ _ _ _ _ _ _ _ _
        · exact getD_panel_ne_pts _ _ _ _ _ _ _ _ _ _ _ _ _
      · rw [if_neg h2] at hC
        by_cases h3 : doubleO14B p = true
        · rw [if_pos h3] at hC
          dsimp only at hC
          simp only [List.mem_cons, List.not_mem_nil, or_false] at hC
          rcases hC with rfl | rfl
          · exact getD_panel_ne_pts _ _ _ _ _ _ _ _ _ _ _ _ _
          · exact getD_panel_ne_pts _ _ _ _ _ _ _ _ _ _ _ _ _
        · rw [if_neg h3] at hC
          dsimp only at hC
          exact absurd hC (List.not_mem_nil po)

theorem generateCutouts_pts_closed (p : Params) (fr : Frames) (hd : Handles)
    (hrh : closed4 hd.right_handle)
    (hlh : hd.left_handle ≠ [] → closed4 hd.left_handle) :
    ∀ c ∈ generateCutouts p fr hd, ∀ l, c.poly = Poly.pts l → closed4 l := by
  intro c hc l hl
  unfold generateCutouts at hc
  rcases List.mem_append.1 hc with hc2 | hkb
  rcases List.mem_append.1 hc2 with hh | hg
  · unfold handleCutsOf at hh
    rcases List.mem_append.1 hh with hL | hR
    · by_cases hne : hd.left_handle ≠ []
      · rw [if_pos hne] at hL
        rw [List.mem_singleton] at hL
        subst hL
        dsimp only at hl
        injection hl with h2
        rw [← h2]
        exact hlh hne
      · rw [if_neg hne] at hL
        exact absurd hL (List.not_mem_nil c)
    · rw [List.mem_singleton] at hR
      subst hR
      dsimp only at hl
      injection hl with h2
      rw [← h2]
      exact hrh
  · unfold glassCutsOf at hg
    dsimp only at hg
    by_cases hstd : (glassPlan p fr hd).2.2 = true
    · rw [if_pos hstd] at hg
      rw [List.mem_singleton] at hg
      subst hg
      dsimp only at hl
      rw [glassPlan_fst_pts p fr hd l hl]
      exact hrh
    · rw [if_neg hstd] at hg
      rcases List.mem_map.1 hg with ⟨ip, hip, hceq⟩
      obtain ⟨i, po⟩ := ip
      subst hceq
      dsimp only at hl
      have hmem : po ∈ (glassPlan p fr hd).2.1 := by
        rw [List.mem_enum_iff_getElem?] at hip
        exact List.getElem?_mem hip
      exact absurd hl (glassPlan_no_pts p fr hd po hmem l)
  · unfold keyboxCutsOf at hkb
    dsimp only at hkb
    by_cases hfire : pyLower (pyStrip p.door.type) = "fire"
    · rw [if_pos hfire] at hkb
      rw [List.mem_singleton] at hkb
      subst hkb
      dsimp only at hl
      injection hl with h2
      rw [← h2]
      exact closed4_explicit _ _ _ _
    · rw [if_neg hfire] at hkb
      exact absurd hkb (List.not_mem_nil c)

/-- C8: the scene half of the claim holds — every `Frame` polygon and every
explicit point-list `Cutout` polygon of a returned scene is closed with at
least 4 points — and `dedupe_consecutive_points` does return a list whose
first element equals its last for non-empty input (appending the first point
when needed); but the eps-separation half is overstated: only the
consecutive pairs among the kept points (all pairs except the final closing
pair) are guaranteed to differ by more than 1e-6, the appended closing point
may sit arbitrarily close to its predecessor (see the counterexample). -/
theorem claim8_closed_polygons :
    (∀ l : List Point, l ≠ [] →
        (dedupeConsecutivePoints l).head? = (dedupeConsecutivePoints l).getLast?) ∧
    (∀ l : List Point, List.Chain' farApart (dedupeConsecutivePoints l).dropLast) ∧
    (∀ (req : DoorDXFRequest) (r : Bool) (o : ℚ × ℚ),
        (computeDoorGeometry req r o).isOk = true →
        sceneFramesClosed (computeDoorGeometry req r o) = true ∧
        sceneRectCutsClosed (computeDoorGeometry req r o) = true) := by
  refine ⟨dedupe_closed, dedupe_chain, ?_⟩
  intro req r o hok
  cases hp : prepareDimensions req with
  | error e =>
      rw [computeDoorGeometry, hp] at hok
      exact Bool.noConfusion hok
  | ok params =>
      rw [computeDoorGeometry, hp]
      dsimp only
      rw [sceneFramesClosed, sceneRectCutsClosed]
      dsimp only
      obtain ⟨ho2, hi2, hlo2, hli2, hrh2, hlh2⟩ := pipelineCore_closed params r
      constructor
      · rw [List.all_eq_true]
        intro f hf
        exact closed4_check _ (buildFrameObjs_closed _ ho2 hi2 hlo2 hli2 f hf)
      · rw [List.all_eq_true]
        intro c hc
        cases hcp : c.poly with
        | pts l =>
            exact closed4_check l
              (generateCutouts_pts_closed params _ _ hrh2 hlh2 c hc l hcp)
        | roundedRect a b w ht r2 s => rfl
        | roundedBox a b w ht r2 => rfl

/-- C8 witness: the closure and separation facts evaluated on a concrete
list, and the scene facts on the standard single-door request. -/
theorem claim8_closed_polygons_witness :
    (dedupeConsecutivePoints [((0 : ℚ), (0 : ℚ)), (5, 0)]).head?
      = (dedupeConsecutivePoints [((0 : ℚ), (0 : ℚ)), (5, 0)]).getLast? ∧
    List.Chain' farApart (dedupeConsecutivePoints [((0 : ℚ), (0 : ℚ)), (5, 0)]).dropLast ∧
    sceneFramesClosed (computeDoorGeometry reqSingle false (0, 0)) = true ∧
    sceneRectCutsClosed (computeDoorGeometry reqSingle false (0, 0)) = true := by
  have hok : (computeDoorGeometry reqSingle false (0, 0)).isOk = true := by
    with_unfolding_all rfl
  have hsc := claim8_closed_polygons.2.2 reqSingle false (0, 0) hok
  exact ⟨claim8_closed_polygons.1 _ (by simp), claim8_closed_polygons.2.1 _, hsc.1, hsc.2⟩

/-- C8 counterexample: `dedupe_consecutive_points` appends the closing
point without re-checking the epsilon separation, so the returned list can
contain a consecutive pair within 1e-6 of each other in both coordinates
(here the last kept point and the appended closing point differ by
1/2000000 = 5e-7 in x and in y). -/
theorem claim8_counterexample :
    dedupeConsecutivePoints [((0 : ℚ), (0 : ℚ)), (1, 0), (1/2000000, 1/2000000)]
      = [(0, 0), (1, 0), (1/2000000, 1/2000000), (0, 0)] ∧
    ¬ farApart ((1/2000000 : ℚ), (1/2000000 : ℚ)) ((0 : ℚ), (0 : ℚ)) := by
  constructor
  · with_unfolding_all rfl
  · unfold farApart
    with_unfolding_all decide

end DoorGeom
